import Mathlib

/-!
Shallow embedding of the adaptive tickless timer scheduling subsystem
(`kernel/time/tick-sched.c` and `kernel/time/nohz.c`) and proofs of the
behavioural properties claimed for it.

Modelling conventions:
* `ktime_t` (a signed 64-bit nanosecond count, field `tv64`) is modelled
  as `Int`; 64-bit overflow never matters for the properties below, and
  where a C cast to `u64` is semantically relevant it is made explicit.
* `unsigned long` tick counters (`jiffies` and friends) are modelled as
  `Nat`, with explicit wrap-around arithmetic where the source relies
  on it.
* Functions that in the kernel read volatile global state are given that
  state explicitly and return the updated state; external collaborators
  (the scheduler, RCU, the timer wheel, the hardware event device) are
  passed in as explicit oracle inputs.
-/

namespace TickSched

/-- `ktime_t` values: signed 64-bit nanoseconds (`tv64`). -/
abbrev Ktime := Int

/-- `KTIME_MAX`: the largest `s64` value. -/
def KTIME_MAX : Ktime := 2 ^ 63 - 1

/-- `LONG_MAX` on a 64-bit machine. -/
def LONG_MAX : Nat := 2 ^ 63 - 1

/-- `NEXT_TIMER_MAX_DELTA`: the largest jiffies delta the timer wheel
reports (`(1UL << 30) - 1`). -/
def NEXT_TIMER_MAX_DELTA : Nat := 2 ^ 30 - 1

/-- `TICK_DO_TIMER_NONE`: the sentinel stored in `tick_do_timer_cpu`
when no CPU holds the jiffies-update duty (value `-1` in the kernel). -/
def TICK_DO_TIMER_NONE : Int := -1

/-- Reinterpret an `s64` value as `u64` (the C cast used when a signed
quantity is returned through a `u64` function type). -/
def u64_of_s64 (i : Int) : Nat := (i % (2 : Int) ^ 64).toNat

/-- `NOHZ_MODE_*`: the per-CPU tick mode. -/
inductive NohzMode where
  | inactive
  | lowres
  | highres
deriving DecidableEq, Repr

/-- `JIFFIES_SAVED_*`: which accounting bucket the ticks elapsed while
the tick was stopped belong to. -/
inductive Whence where
  | none
  | idle
  | user
  | sys
deriving DecidableEq, Repr

/-! ## GlobalTimeBase: `tick_do_update_jiffies64` -/

/-- The global time base: the jiffies counter together with the
timestamp of its last update and the precomputed next period deadline.
In the kernel these are the globals `jiffies` / `last_jiffies_update` /
`tick_next_period`, all protected by `xtime_lock`. -/
@[ext]
structure TimeBase where
  jiffies : Nat
  last_jiffies_update : Ktime
  tick_next_period : Ktime
deriving DecidableEq, Repr

/-- `tick_do_update_jiffies64(now)`: advance jiffies by the number of
whole `tick_period`s elapsed since `last_jiffies_update`.  The function
is modelled sequentially: the caller holds `xtime_lock`, so the re-read
of `last_jiffies_update` under the lock observes the same value as the
lock-free quick check. -/
def tick_do_update_jiffies64 (tick_period : Ktime) (now : Ktime)
    (tb : TimeBase) : TimeBase :=
  let delta := now - tb.last_jiffies_update
  if delta < tick_period then tb
  else
    let delta := delta - tick_period
    let lu := tb.last_jiffies_update + tick_period
    let (ticks, lu) :=
      if tick_period ≤ delta then
        let incr := tick_period
        let t := delta / incr
        (t, lu + incr * t)
      else ((0 : Int), lu)
    { jiffies := tb.jiffies + (ticks + 1).toNat
      last_jiffies_update := lu
      tick_next_period := lu + tick_period }

/-- Folding `tick_do_update_jiffies64` over a sequence of `now`
timestamps (an arbitrary interleaving of callers; the lock serialises
them, so a sequence of calls is the faithful model). -/
def updateJiffiesSeq (tick_period : Ktime) (nows : List Ktime)
    (tb : TimeBase) : TimeBase :=
  nows.foldl (fun s n => tick_do_update_jiffies64 tick_period n s) tb

/-! ## Per-CPU tick state (`struct tick_sched`) -/

/-- The per-CPU `struct tick_sched` (only the fields this subsystem
reads or writes).  `sched_timer_expires` stands for
`hrtimer_get_expires(&ts->sched_timer)`, the currently programmed
expiry of the CPU's private tick timer. -/
@[ext]
structure TS where
  nohz_mode : NohzMode
  tick_stopped : Bool
  inidle : Bool
  idle_active : Bool
  idle_entrytime : Ktime
  idle_sleeptime : Ktime
  iowait_sleeptime : Ktime
  do_timer_last : Bool
  user_nohz : Bool
  saved_jiffies : Nat
  saved_jiffies_whence : Whence
  last_tick : Ktime
  sched_timer_expires : Ktime
  next_jiffies : Nat
  last_jiffies : Nat
  sleep_length : Ktime
deriving DecidableEq, Repr

/-- `ktime_to_us`: convert nanoseconds to microseconds (the values fed
to it in this subsystem are non-negative accumulators). -/
def ktime_to_us (k : Ktime) : Int := k / 1000

/-- `update_ts_time_stats(cpu, ts, now, last_update_time)`: fold the
in-progress idle interval into the idle or iowait accumulator.
`nr_iowait` is the collaborator `nr_iowait_cpu(cpu)`; the returned
`Option Int` is the value stored through `last_update_time` when the
pointer is non-null (`wantLastUpdate`). -/
def update_ts_time_stats (nr_iowait : Nat) (now : Ktime)
    (wantLastUpdate : Bool) (ts : TS) : TS × Option Int :=
  let ts :=
    if ts.idle_active then
      let delta := now - ts.idle_entrytime
      let ts :=
        if nr_iowait > 0 then
          { ts with iowait_sleeptime := ts.iowait_sleeptime + delta }
        else
          { ts with idle_sleeptime := ts.idle_sleeptime + delta }
      { ts with idle_entrytime := now }
    else ts
  (ts, if wantLastUpdate then some (ktime_to_us now) else none)

/-- `get_cpu_idle_time_us(cpu, last_update_time)`.  Returns the `u64`
result together with the (possibly updated) per-CPU state and the value
written through the pointer. -/
def get_cpu_idle_time_us (tick_nohz_enabled : Bool) (nr_iowait : Nat)
    (now : Ktime) (wantLastUpdate : Bool) (ts : TS) :
    Nat × TS × Option Int :=
  if ¬ tick_nohz_enabled then (u64_of_s64 (-1), ts, none)
  else if wantLastUpdate then
    let (ts', lu) := update_ts_time_stats nr_iowait now true ts
    (u64_of_s64 (ktime_to_us ts'.idle_sleeptime), ts', lu)
  else
    let idle :=
      if ts.idle_active ∧ nr_iowait = 0 then
        ts.idle_sleeptime + (now - ts.idle_entrytime)
      else ts.idle_sleeptime
    (u64_of_s64 (ktime_to_us idle), ts, none)

/-- `get_cpu_iowait_time_us(cpu, last_update_time)`. -/
def get_cpu_iowait_time_us (tick_nohz_enabled : Bool) (nr_iowait : Nat)
    (now : Ktime) (wantLastUpdate : Bool) (ts : TS) :
    Nat × TS × Option Int :=
  if ¬ tick_nohz_enabled then (u64_of_s64 (-1), ts, none)
  else if wantLastUpdate then
    let (ts', lu) := update_ts_time_stats nr_iowait now true ts
    (u64_of_s64 (ktime_to_us ts'.iowait_sleeptime), ts', lu)
  else
    let iowait :=
      if ts.idle_active ∧ nr_iowait > 0 then
        ts.iowait_sleeptime + (now - ts.idle_entrytime)
      else ts.iowait_sleeptime
    (u64_of_s64 (ktime_to_us iowait), ts, none)

/-! ## TickAccountant: `tick_nohz_account_ticks` -/

/-- `unsigned long` subtraction on a 64-bit machine (wraps modulo
`2^64`). -/
def u64_sub (a b : Nat) : Nat :=
  (a % 2 ^ 64 + (2 ^ 64 - b % 2 ^ 64)) % 2 ^ 64

/-- The observable effect of one `tick_nohz_account_ticks` call:
which accounting sink was fed how many ticks (`none` when no accounting
happened), and whether any diagnostic was logged.  The only log site in
the function is the `WARN_ON_ONCE(1)` in the `default:` branch of the
switch, which a well-formed `saved_jiffies_whence` never reaches. -/
structure AccountOut where
  sink : Option (Whence × Nat)
  logged : Bool
deriving DecidableEq, Repr

/-- `tick_nohz_account_ticks(ts)`: route the ticks elapsed since
`ts->saved_jiffies` to the accounting bucket recorded in
`ts->saved_jiffies_whence`. -/
def tick_nohz_account_ticks (jiffies : Nat) (ts : TS) : AccountOut :=
  let ticks := u64_sub jiffies ts.saved_jiffies
  if ticks ≠ 0 ∧ ticks < LONG_MAX then
    match ts.saved_jiffies_whence with
    | .idle => { sink := some (.idle, ticks), logged := false }
    | .user => { sink := some (.user, ticks), logged := false }
    | .sys => { sink := some (.sys, ticks), logged := false }
    | .none => { sink := none, logged := false }
  else { sink := none, logged := false }

/-! ## IdleTickController: `can_stop_idle_tick` -/

/-- External observations consumed by `can_stop_idle_tick`. -/
structure IdleTickEnv where
  online : Bool
  needResched : Bool
  softirqPending : Nat
deriving DecidableEq, Repr

/-- `can_stop_idle_tick(cpu, ts)`.  Returns the verdict, the possibly
updated `tick_do_timer_cpu` (an offline CPU holding the duty gives it
up), the updated static `ratelimit` counter, and whether this call
emitted the pending-softirq log line. -/
def can_stop_idle_tick (cpu : Int) (env : IdleTickEnv) (duty : Int)
    (ratelimit : Nat) (ts : TS) : Bool × Int × Nat × Bool :=
  let duty := if ¬ env.online ∧ cpu = duty then TICK_DO_TIMER_NONE else duty
  if ts.nohz_mode = .inactive then (false, duty, ratelimit, false)
  else if env.needResched then (false, duty, ratelimit, false)
  else if env.softirqPending ≠ 0 ∧ env.online then
    if ratelimit < 10 then (false, duty, ratelimit + 1, true)
    else (false, duty, ratelimit, false)
  else (true, duty, ratelimit, false)

/-! ## DutyRegistry / DutyCoordinator: `check_drop_timer_duty`

The function runs lock-free against concurrently mutated atomics
(`tick_do_timer_cpu`, `nr_cpus_user_nohz`).  Its loop body is modelled
over an explicit record of the values each shared read and the
`cmpxchg` observe during one iteration; a whole call is a run over a
list of such observations (one per iteration).  The sequential
(interference-free) call is the special case where each iteration's
observations all come from the same state. -/

/-- The values the shared reads of one `check_drop_timer_duty`
iteration observe.  `count1` is `atomic_read(&nr_cpus_user_nohz)` at
the top, `dutyRead` the `ACCESS_ONCE(tick_do_timer_cpu)`,
`dutyUserNohz` the `user_nohz` flag of the CPU named by `dutyRead`,
`dutyAtCas` the value of `tick_do_timer_cpu` at the instant the
`cmpxchg` executes, and `count2` the re-read of `nr_cpus_user_nohz`
after it. -/
structure DutyObs where
  count1 : Int
  dutyRead : Int
  dutyUserNohz : Bool
  dutyAtCas : Int
  count2 : Int
deriving DecidableEq, Repr

/-- Caller context for `check_drop_timer_duty`:
`is_idle_task(current)` and `cpuset_cpu_adaptive_nohz(cpu)`. -/
structure DutyCtx where
  isIdleTask : Bool
  adaptiveSelf : Bool
deriving DecidableEq, Repr

/-- Outcome of one loop iteration: a `return v` or a `goto repeat`,
together with the value `tick_do_timer_cpu` holds right after the
iteration's `cmpxchg` (unchanged when the early-return path skips the
`cmpxchg`). -/
inductive DutyIter where
  | ret (v : Int) (dutyAfter : Int)
  | again (dutyAfter : Int)
deriving DecidableEq, Repr

/-- One iteration of the `repeat:` loop of `check_drop_timer_duty`
(`CONFIG_CPUSETS_NO_HZ` configuration, where `update_do_timer_cpu` is a
`cmpxchg`).  `drop_recheck`, `curr_handler` and `new_handler` follow
the source line by line. -/
def check_drop_iter (cpu : Int) (ctx : DutyCtx) (o : DutyObs) : DutyIter :=
  if o.count1 > 0 then
    let curr := o.dutyRead
    if curr = cpu then DutyIter.ret cpu o.dutyRead
    else
      let newh :=
        if curr = TICK_DO_TIMER_NONE ∨
            (o.dutyUserNohz ∧ (ctx.isIdleTask ∨ ¬ ctx.adaptiveSelf)) then cpu
        else curr
      let prevh := o.dutyAtCas
      let dutyAfter := if prevh = curr then newh else prevh
      if newh ≠ TICK_DO_TIMER_NONE then
        if prevh = curr then DutyIter.ret newh dutyAfter
        else DutyIter.again dutyAfter
      else DutyIter.ret (if prevh = cpu then TICK_DO_TIMER_NONE else prevh) dutyAfter
  else
    let curr := cpu
    let prevh := o.dutyAtCas
    let dutyAfter := if prevh = curr then TICK_DO_TIMER_NONE else prevh
    if o.count2 > 0 then DutyIter.again dutyAfter
    else DutyIter.ret (if prevh = cpu then TICK_DO_TIMER_NONE else prevh) dutyAfter

/-- A full `check_drop_timer_duty` call over a trace of per-iteration
observations.  Returns the function's result and the number of
iterations executed, or `none` when the loop is still running after
consuming the whole trace. -/
def check_drop_run (cpu : Int) (ctx : DutyCtx) :
    List DutyObs → Option (Int × Nat)
  | [] => none
  | o :: rest =>
    match check_drop_iter cpu ctx o with
    | .ret v _ => some (v, 1)
    | .again _ => (check_drop_run cpu ctx rest).map fun p => (p.1, p.2 + 1)

/-- The observations an iteration makes when nothing runs concurrently:
every read sees the same state. -/
def obsOf (duty nr : Int) (flagOf : Int → Bool) : DutyObs :=
  { count1 := nr, dutyRead := duty, dutyUserNohz := flagOf duty
    dutyAtCas := duty, count2 := nr }

/-- `check_drop_timer_duty(cpu)` in the absence of concurrent
interference.  With consistent observations the first iteration always
returns (lemma `check_drop_iter_obsOf_ret` below), so the `again` arm
is dead code kept only to make the match total.  Returns the result
and the new `tick_do_timer_cpu`. -/
def check_drop_timer_duty (cpu : Int) (ctx : DutyCtx) (duty nr : Int)
    (flagOf : Int → Bool) : Int × Int :=
  match check_drop_iter cpu ctx (obsOf duty nr flagOf) with
  | .ret v d => (v, d)
  | .again d => (TICK_DO_TIMER_NONE, d)

/-! ## IdleTickController: `tick_nohz_stop_sched_tick` -/

/-- The globals `tick_nohz_stop_sched_tick` reads and writes:
the time base (`jiffies`, `last_jiffies_update`, `tick_next_period`)
and the duty registry (`tick_do_timer_cpu`, `nr_cpus_user_nohz`). -/
@[ext]
structure Globals where
  jiffies : Nat
  last_jiffies_update : Ktime
  tick_next_period : Ktime
  tick_do_timer_cpu : Int
  nr_cpus_user_nohz : Int
deriving DecidableEq, Repr

/-- `tick_do_update_jiffies64` acting on the full global state. -/
def update_jiffies64_g (tick_period now : Ktime) (g : Globals) : Globals :=
  let tb := tick_do_update_jiffies64 tick_period now
    ⟨g.jiffies, g.last_jiffies_update, g.tick_next_period⟩
  { g with jiffies := tb.jiffies, last_jiffies_update := tb.last_jiffies_update
           tick_next_period := tb.tick_next_period }

/-- External inputs of one `tick_nohz_stop_sched_tick` call:
`forced` is `rcu_needs_cpu || printk_needs_cpu || arch_needs_cpu`,
`next_timer` the timer wheel's `get_next_timer_interrupt(last_jiffies)`,
`max_deferment` the `timekeeping_max_deferment()` read under the
seqlock, `flagOf` the cross-CPU view of the `user_nohz` flags,
`programOk` whether the expiry handed to the hardware still lies in
the future, and `now2` the `ktime_get()` of the already-expired
fallback path. -/
structure StopEnv where
  forced : Bool
  next_timer : Nat
  max_deferment : Int
  ctx : DutyCtx
  flagOf : Int → Bool
  programOk : Bool
  now2 : Ktime

/-- Everything a `tick_nohz_stop_sched_tick` call produces: the new
per-CPU state, the new globals, the event device's `next_event`, the
returned expiry (`0` on the bail-out paths), and counters of hardware
program / cancel operations plus whether `TIMER_SOFTIRQ` was raised. -/
structure StopResult where
  ts : TS
  g : Globals
  dev_next_event : Ktime
  ret : Ktime
  programs : Nat
  cancels : Nat
  softirqRaised : Bool
deriving DecidableEq, Repr

/-- `next_jiffies`: the forced one-tick bound, or the timer wheel's
next expiry. -/
def stop_next_jiffies (env : StopEnv) (g : Globals) : Nat :=
  if env.forced then g.jiffies + 1 else env.next_timer

/-- `delta_jiffies = next_jiffies - last_jiffies` (signed view of the
unsigned difference, as the source's `(long)delta_jiffies` test
reads it). -/
def stop_delta_jiffies (env : StopEnv) (g : Globals) : Int :=
  if env.forced then 1 else (env.next_timer : Int) - (g.jiffies : Int)

/-- The `do_timer_last` update of the duty/cap block (source lines
445–452): the previous holder marks itself, a deferred-to holder
clears the mark. -/
def stop_cap_ts (cpu prev_handler new_handler : Int) (ts : TS) : TS :=
  if prev_handler = cpu then { ts with do_timer_last := true }
  else if new_handler ≠ TICK_DO_TIMER_NONE then { ts with do_timer_last := false }
  else ts

/-- The `time_delta` selection of the same block: the previous duty
holder keeps the `timekeeping_max_deferment()` cap, everyone else
sleeps unbounded (`KTIME_MAX`) unless a stale `do_timer_last` is still
set. -/
def stop_cap_delta (cpu prev_handler new_handler : Int) (do_timer_last : Bool)
    (max_deferment : Int) : Int :=
  if prev_handler = cpu then max_deferment
  else if new_handler ≠ TICK_DO_TIMER_NONE then KTIME_MAX
  else if ¬ do_timer_last then KTIME_MAX
  else max_deferment

/-- The clamping of `time_delta` to the next timer wheel event when
one is pending (`delta_jiffies < NEXT_TIMER_MAX_DELTA`). -/
def stop_clamped_delta (tick_period delta_jiffies time_delta : Int) : Int :=
  if delta_jiffies < (NEXT_TIMER_MAX_DELTA : Int) then
    min time_delta (tick_period * delta_jiffies)
  else time_delta

/-- The expiry computation: add the clamped delta to `last_update`, or
go to the end of time. -/
def stop_expires (tick_period : Ktime) (delta_jiffies : Int)
    (time_delta : Int) (last_update : Ktime) : Ktime :=
  if stop_clamped_delta tick_period delta_jiffies time_delta < KTIME_MAX then
    last_update + stop_clamped_delta tick_period delta_jiffies time_delta
  else KTIME_MAX

/-- The first transition into the stopped state: snapshot the armed
periodic phase into `last_tick` and set `tick_stopped` (a second call
finds the tick already stopped and leaves both alone). -/
def stop_stopped_ts (ts1 : TS) : TS :=
  if ¬ ts1.tick_stopped then
    { ts1 with last_tick := ts1.sched_timer_expires, tick_stopped := true }
  else ts1

/-- In high-resolution mode, `hrtimer_start` records the armed expiry
in the per-CPU timer. -/
def stop_highres_ts (expires : Ktime) (ts2 : TS) : TS :=
  if ts2.nohz_mode = NohzMode.highres then
    { ts2 with sched_timer_expires := expires }
  else ts2

/-- `tick_nohz_stop_sched_tick(ts, now, cpu)`.  A hardware program
records the armed expiry in `dev_next_event` (that is what the
`ktime_equal(expires, dev->next_event)` skip test compares against on
the next call). -/
def tick_nohz_stop_sched_tick (tick_period : Ktime) (env : StopEnv)
    (cpu : Int) (now : Ktime) (ts : TS) (g : Globals) (devNext : Ktime) :
    StopResult :=
  let last_update := g.last_jiffies_update
  let last_jiffies := g.jiffies
  let next_jiffies := stop_next_jiffies env g
  let delta_jiffies := stop_delta_jiffies env g
  let finish : TS → Globals → Ktime → Ktime → Nat → Nat → Bool → StopResult :=
    fun ts g dn ret progs cans sirq =>
      { ts := { ts with next_jiffies := next_jiffies
                        last_jiffies := last_jiffies
                        sleep_length := dn - now }
        g := g, dev_next_event := dn, ret := ret, programs := progs
        cancels := cans, softirqRaised := sirq }
  if ¬ ts.tick_stopped ∧ delta_jiffies = 1 then finish ts g devNext 0 0 0 false
  else if 1 ≤ delta_jiffies then
    let prev_handler := g.tick_do_timer_cpu
    let cd := check_drop_timer_duty cpu env.ctx g.tick_do_timer_cpu
      g.nr_cpus_user_nohz env.flagOf
    let new_handler := cd.1
    let g1 := { g with tick_do_timer_cpu := cd.2 }
    if new_handler = cpu then finish ts g1 devNext 0 0 0 false
    else
      let ts1 := stop_cap_ts cpu prev_handler new_handler ts
      let td := stop_cap_delta cpu prev_handler new_handler ts.do_timer_last
        env.max_deferment
      let expires := stop_expires tick_period delta_jiffies td last_update
      if ts1.tick_stopped ∧ expires = devNext then finish ts1 g1 devNext 0 0 0 false
      else
        let ts2 := stop_stopped_ts ts1
        if expires = KTIME_MAX then
          if ts2.nohz_mode = NohzMode.highres then
            finish ts2 g1 devNext expires 0 1 false
          else finish ts2 g1 devNext expires 0 0 false
        else
          let ts3 := stop_highres_ts expires ts2
          if env.programOk then finish ts3 g1 expires expires 1 0 false
          else
            finish ts3 (update_jiffies64_g tick_period env.now2 g1) expires
              expires 1 0 true
  else finish ts g devNext 0 0 0 true

/-! ## AdaptiveBusyController -/

/-- `can_stop_adaptive_tick(ts)`.  `eligible` bundles the three
external preconditions (`sched_can_stop_tick()`, no running posix CPU
timers, no pending RCU work); the body keeps `ts->user_nohz` and
`nr_cpus_user_nohz` in sync with the verdict. -/
def can_stop_adaptive_tick (eligible : Bool) (ts : TS) (nr : Int) :
    Bool × TS × Int :=
  let ret := eligible
  if ret ∧ ¬ ts.user_nohz then (ret, { ts with user_nohz := true }, nr + 1)
  else if ¬ ret ∧ ts.user_nohz then (ret, { ts with user_nohz := false }, nr - 1)
  else (ret, ts, nr)

/-- External inputs of `tick_nohz_cpuset_stop_tick`: the interrupted
register context (`hasRegs`, `userMode`), the cpuset and task context,
and the inputs forwarded to the nested `tick_nohz_stop_sched_tick`. -/
structure CpusetEnv where
  hasRegs : Bool
  userMode : Bool
  cpusetAdaptive : Bool
  isIdleTask : Bool
  hasMm : Bool
  eligible : Bool
  stopEnv : StopEnv
  now : Ktime

/-- The state `tick_nohz_cpuset_stop_tick` operates on: the per-CPU
tick state, the globals, the event device expiry, the per-task
`TIF_NOHZ` flag and the per-CPU `nohz_task_ext_qs` flag. -/
structure CpusetState where
  ts : TS
  g : Globals
  dev_next_event : Ktime
  tif_nohz : Bool
  ext_qs : Bool
deriving DecidableEq, Repr

/-- `tick_nohz_cpuset_stop_tick(ts)` (the `CONFIG_CPUSETS_NO_HZ`
version). -/
def tick_nohz_cpuset_stop_tick (tick_period : Ktime) (cpu : Int)
    (env : CpusetEnv) (s : CpusetState) : CpusetState :=
  let user := env.hasRegs ∧ env.userMode
  if ¬ env.cpusetAdaptive ∨ env.isIdleTask then s
  else if ¬ s.ts.tick_stopped ∧ s.ts.nohz_mode = NohzMode.inactive then s
  else
    let ca := can_stop_adaptive_tick env.eligible s.ts s.g.nr_cpus_user_nohz
    let s := { s with ts := ca.2.1
                      g := { s.g with nr_cpus_user_nohz := ca.2.2 } }
    if ¬ ca.1 then s
    else if ¬ user ∧ env.hasMm then s
    else
      let was_stopped := s.ts.tick_stopped
      let r := tick_nohz_stop_sched_tick tick_period env.stopEnv cpu env.now
        s.ts s.g s.dev_next_event
      let s := { s with ts := r.ts, g := r.g, dev_next_event := r.dev_next_event }
      if ¬ was_stopped ∧ s.ts.tick_stopped then
        let s :=
          if user then
            { s with ts := { s.ts with saved_jiffies_whence := Whence.user }
                     ext_qs := true }
          else if ¬ env.hasMm then
            { s with ts := { s.ts with saved_jiffies_whence := Whence.sys } }
          else s
        { s with ts := { s.ts with saved_jiffies := s.g.jiffies }
                 tif_nohz := true }
      else s

/-! ## The busy-adaptive counter invariant (state machine)

Only three code sites touch a `user_nohz` flag or `nr_cpus_user_nohz`:
`can_stop_adaptive_tick`, the flag-clearing block at the top of
`tick_nohz_start_idle`, and the identical block in
`tick_nohz_restart_adaptive`.  The system-wide state is the vector of
per-CPU flags plus the shared counter; each site is one atomic step of
the machine (the kernel runs each under disabled interrupts on the
owning CPU, and the counter updates are atomics). -/

/-- System-wide busy-adaptive state for an `n`-CPU machine. -/
structure DutySys (n : Nat) where
  user_nohz : Fin n → Bool
  nr_cpus_user_nohz : Int
deriving DecidableEq

/-- The `user_nohz`/`nr_cpus_user_nohz` manipulation of
`can_stop_adaptive_tick` run on CPU `cpu` with verdict `eligible`. -/
def adaptiveCheckStep {n : Nat} (cpu : Fin n) (eligible : Bool)
    (s : DutySys n) : DutySys n :=
  if eligible ∧ ¬ s.user_nohz cpu then
    { user_nohz := Function.update s.user_nohz cpu true
      nr_cpus_user_nohz := s.nr_cpus_user_nohz + 1 }
  else if ¬ eligible ∧ s.user_nohz cpu then
    { user_nohz := Function.update s.user_nohz cpu false
      nr_cpus_user_nohz := s.nr_cpus_user_nohz - 1 }
  else s

/-- The flag-clearing block shared by `tick_nohz_start_idle` and
`tick_nohz_restart_adaptive`:
`if (ts->user_nohz) { ts->user_nohz = 0; atomic_add(-1, ...); }`. -/
def adaptiveClearStep {n : Nat} (cpu : Fin n) (s : DutySys n) : DutySys n :=
  if s.user_nohz cpu then
    { user_nohz := Function.update s.user_nohz cpu false
      nr_cpus_user_nohz := s.nr_cpus_user_nohz - 1 }
  else s

/-- One step of the busy-adaptive state machine: any CPU runs one of
the three mutation sites. -/
inductive AdaptiveStep (n : Nat) : DutySys n → DutySys n → Prop
  | check (cpu : Fin n) (eligible : Bool) (s : DutySys n) :
      AdaptiveStep n s (adaptiveCheckStep cpu eligible s)
  | startIdle (cpu : Fin n) (s : DutySys n) :
      AdaptiveStep n s (adaptiveClearStep cpu s)
  | restartAdaptive (cpu : Fin n) (s : DutySys n) :
      AdaptiveStep n s (adaptiveClearStep cpu s)

/-- The claimed invariant: the shared counter equals the number of
CPUs whose `user_nohz` flag is set. -/
def AdaptiveInv {n : Nat} (s : DutySys n) : Prop :=
  s.nr_cpus_user_nohz =
    ((Finset.univ : Finset (Fin n)).filter fun i => s.user_nohz i).card

instance {n : Nat} (s : DutySys n) : Decidable (AdaptiveInv s) := by
  unfold AdaptiveInv; infer_instance

/-! ## `nohz.c`: per-domain target selection -/

/-- `cpu_get_nohz_target` from `kernel/time/nohz.c`.  `nohz_on` is the
per-CPU flag array, `ncpus_per_dom` and `nr_cpus` the configuration
constants (`NR_CPUS`).  C integer division truncates towards zero,
hence `Int.tdiv`. -/
def cpu_get_nohz_target (nohz_on : Int → Int) (ncpus_per_dom : Int)
    (nr_cpus : Int) (cpu : Int) : Int :=
  if 0 ≤ cpu ∧ cpu < nr_cpus then
    if nohz_on cpu = 0 then cpu
    else (Int.tdiv cpu ncpus_per_dom) * ncpus_per_dom
  else cpu

/-- The guard with which `__tick_nohz_idle_enter` decides to call
`tick_nohz_stop_sched_tick`: the stop path is entered exactly when
`can_stop_idle_tick` returned true. -/
def idle_enter_calls_stop_tick (cpu : Int) (env : IdleTickEnv) (duty : Int)
    (rl : Nat) (ts : TS) : Bool :=
  (can_stop_idle_tick cpu env duty rl ts).1

/-- A baseline per-CPU state used by the concrete evaluations below:
high-resolution mode, tick running, nothing accumulated. -/
def ts0 : TS :=
  { nohz_mode := NohzMode.highres, tick_stopped := false, inidle := false
    idle_active := false, idle_entrytime := 0, idle_sleeptime := 0
    iowait_sleeptime := 0, do_timer_last := false, user_nohz := false
    saved_jiffies := 0, saved_jiffies_whence := Whence.none, last_tick := 0
    sched_timer_expires := 0, next_jiffies := 0, last_jiffies := 0
    sleep_length := 0 }

/-! # Theorems -/

/-! ## GlobalTimeBase lemmas -/

/-- Fast path: less than one period elapsed, no state change. -/
theorem tick_do_update_jiffies64_noop {p now : Ktime} {tb : TimeBase}
    (h : now - tb.last_jiffies_update < p) :
    tick_do_update_jiffies64 p now tb = tb := by
  unfold tick_do_update_jiffies64
  simp [h]

/-- Slow path: at least one period elapsed.  The counter advances by
exactly `⌊(now − last_update)/p⌋`, `last_update` by that many whole
periods, and the deadline is recomputed. -/
theorem tick_do_update_jiffies64_adv {p now : Ktime} {tb : TimeBase}
    (hp : 0 < p) (h : p ≤ now - tb.last_jiffies_update) :
    tick_do_update_jiffies64 p now tb =
      { jiffies := tb.jiffies + ((now - tb.last_jiffies_update) / p).toNat
        last_jiffies_update :=
          tb.last_jiffies_update + p * ((now - tb.last_jiffies_update) / p)
        tick_next_period :=
          tb.last_jiffies_update + p * ((now - tb.last_jiffies_update) / p) + p } := by
  have hnl : ¬ now - tb.last_jiffies_update < p := not_lt.2 h
  have hp0 : p ≠ 0 := ne_of_gt hp
  have hdiv : (now - tb.last_jiffies_update - p) / p
      = (now - tb.last_jiffies_update) / p - 1 := by
    have h2 := Int.add_mul_ediv_right (now - tb.last_jiffies_update) (-1) hp0
    simpa [sub_eq_add_neg, neg_mul, one_mul] using h2
  by_cases hslow : p ≤ now - tb.last_jiffies_update - p
  · have h1 : (now - tb.last_jiffies_update - p) / p + 1
        = (now - tb.last_jiffies_update) / p := by rw [hdiv]; ring
    simp only [tick_do_update_jiffies64, hnl, if_false, hslow, if_true]
    refine TimeBase.ext ?_ ?_ ?_
    · simp only [h1]
    · simp only []; rw [hdiv]; ring
    · simp only []; rw [hdiv]; ring
  · have hge : 1 ≤ (now - tb.last_jiffies_update) / p :=
      (Int.le_ediv_iff_mul_le hp).2 (by linarith)
    have hlt : (now - tb.last_jiffies_update) / p < 2 :=
      (Int.ediv_lt_iff_lt_mul hp).2 (by push_neg at hslow; linarith)
    have h1 : (now - tb.last_jiffies_update) / p = 1 := by
      have h2 : (now - tb.last_jiffies_update) / p ≤ 1 :=
        Int.lt_add_one_iff.mp (by linarith)
      exact le_antisymm h2 hge
    simp only [tick_do_update_jiffies64, hnl, if_false, hslow, if_false]
    refine TimeBase.ext ?_ ?_ ?_
    · simp [h1]
    · simp only [h1]; ring
    · simp only [h1]; ring

/-- Each call leaves `last_update` advanced by a whole multiple of the
period, never rewinds it, and books exactly one tick per period of
advance (the conservation form of "never double-counted"). -/
theorem tick_do_update_jiffies64_conserve {p : Ktime} (hp : 0 < p)
    (now : Ktime) (tb : TimeBase) :
    p ∣ ((tick_do_update_jiffies64 p now tb).last_jiffies_update
          - tb.last_jiffies_update) ∧
    tb.last_jiffies_update ≤ (tick_do_update_jiffies64 p now tb).last_jiffies_update ∧
    ((tick_do_update_jiffies64 p now tb).jiffies : Int) =
      tb.jiffies + ((tick_do_update_jiffies64 p now tb).last_jiffies_update
          - tb.last_jiffies_update) / p := by
  by_cases h : now - tb.last_jiffies_update < p
  · rw [tick_do_update_jiffies64_noop h]
    simp [Int.zero_ediv]
  · push_neg at h
    rw [tick_do_update_jiffies64_adv hp h]
    have hq0 : 0 ≤ (now - tb.last_jiffies_update) / p :=
      Int.ediv_nonneg (by linarith) (le_of_lt hp)
    have hpq : 0 ≤ p * ((now - tb.last_jiffies_update) / p) :=
      mul_nonneg (le_of_lt hp) hq0
    refine ⟨⟨(now - tb.last_jiffies_update) / p, by simp⟩,
      by simpa using hpq, ?_⟩
    have hcancel :
        (tb.last_jiffies_update + p * ((now - tb.last_jiffies_update) / p)
          - tb.last_jiffies_update) / p
          = (now - tb.last_jiffies_update) / p := by
      rw [add_sub_cancel_left, Int.mul_ediv_cancel_left _ (ne_of_gt hp)]
    simp only [hcancel]
    push_cast [Int.toNat_of_nonneg hq0]
    ring

/-- Conservation and monotonicity extended over any sequence of
`advance(now)` calls. -/
theorem updateJiffiesSeq_conserve {p : Ktime} (hp : 0 < p)
    (nows : List Ktime) (tb : TimeBase) :
    p ∣ ((updateJiffiesSeq p nows tb).last_jiffies_update
          - tb.last_jiffies_update) ∧
    tb.last_jiffies_update ≤ (updateJiffiesSeq p nows tb).last_jiffies_update ∧
    ((updateJiffiesSeq p nows tb).jiffies : Int) =
      tb.jiffies + ((updateJiffiesSeq p nows tb).last_jiffies_update
          - tb.last_jiffies_update) / p := by
  induction nows generalizing tb with
  | nil => simp [updateJiffiesSeq, Int.zero_ediv]
  | cons n rest ih =>
    have h1 := tick_do_update_jiffies64_conserve hp n tb
    set tb1 := tick_do_update_jiffies64 p n tb with htb1
    have h2 := ih tb1
    have hstep : updateJiffiesSeq p (n :: rest) tb = updateJiffiesSeq p rest tb1 := by
      simp [updateJiffiesSeq, htb1]
    rw [hstep]
    obtain ⟨d1, le1, j1⟩ := h1
    obtain ⟨d2, le2, j2⟩ := h2
    obtain ⟨k1, hk1⟩ := d1
    obtain ⟨k2, hk2⟩ := d2
    have hsum : (updateJiffiesSeq p rest tb1).last_jiffies_update
        - tb.last_jiffies_update = p * (k1 + k2) := by
      have hsplit : (updateJiffiesSeq p rest tb1).last_jiffies_update
          - tb.last_jiffies_update
          = ((updateJiffiesSeq p rest tb1).last_jiffies_update
              - tb1.last_jiffies_update)
            + (tb1.last_jiffies_update - tb.last_jiffies_update) := by ring
      rw [hsplit, hk1, hk2]; ring
    refine ⟨⟨k1 + k2, hsum⟩, le_trans le1 le2, ?_⟩
    rw [hsum, Int.mul_ediv_cancel_left _ (ne_of_gt hp)]
    rw [j2, hk2, Int.mul_ediv_cancel_left _ (ne_of_gt hp),
        j1, hk1, Int.mul_ediv_cancel_left _ (ne_of_gt hp)]
    ring

/-- C1: `tick_do_update_jiffies64(now)` with at least one whole
`tick_period` elapsed since `last_jiffies_update` increments the tick
counter by exactly `⌊(now − last_update)/tick_period⌋` in one
`do_timer` application, advances `last_update` by that many whole
periods and recomputes `tick_next_period = last_update + tick_period`;
with less than one period elapsed it changes no state; and over any
sequence of calls the counter is non-decreasing and counts exactly one
tick per period of `last_update` advance (never double-counted). -/
theorem C1_tick_do_update_jiffies64_correct (p : Ktime) (hp : 0 < p) :
    (∀ (now : Ktime) (tb : TimeBase), p ≤ now - tb.last_jiffies_update →
      (tick_do_update_jiffies64 p now tb).jiffies
          = tb.jiffies + ((now - tb.last_jiffies_update) / p).toNat ∧
      (tick_do_update_jiffies64 p now tb).last_jiffies_update
          = tb.last_jiffies_update + p * ((now - tb.last_jiffies_update) / p) ∧
      (tick_do_update_jiffies64 p now tb).tick_next_period
          = (tick_do_update_jiffies64 p now tb).last_jiffies_update + p) ∧
    (∀ (now : Ktime) (tb : TimeBase), now - tb.last_jiffies_update < p →
      tick_do_update_jiffies64 p now tb = tb) ∧
    (∀ (nows : List Ktime) (tb : TimeBase),
      tb.jiffies ≤ (updateJiffiesSeq p nows tb).jiffies ∧
      p ∣ ((updateJiffiesSeq p nows tb).last_jiffies_update
            - tb.last_jiffies_update) ∧
      ((updateJiffiesSeq p nows tb).jiffies : Int) =
        tb.jiffies + ((updateJiffiesSeq p nows tb).last_jiffies_update
            - tb.last_jiffies_update) / p) := by
  refine ⟨fun now tb h => ?_, fun now tb h => tick_do_update_jiffies64_noop h,
    fun nows tb => ?_⟩
  · rw [tick_do_update_jiffies64_adv hp h]
    exact ⟨rfl, rfl, rfl⟩
  · obtain ⟨hdvd, hle, hj⟩ := updateJiffiesSeq_conserve hp nows tb
    refine ⟨?_, hdvd, hj⟩
    obtain ⟨k, hk⟩ := hdvd
    have hd0 : 0 ≤ p * k := hk ▸ (sub_nonneg.mpr hle)
    have hk0 : 0 ≤ k := (mul_nonneg_iff_of_pos_left hp).mp hd0
    rw [hk, Int.mul_ediv_cancel_left _ (ne_of_gt hp)] at hj
    omega

/-- Witness for C1 at a concrete input: period 4, `last_update = 0`,
`now = 10` books `⌊10/4⌋ = 2` ticks and moves `last_update` to 8. -/
theorem C1_witness :
    (0 : Ktime) < 4 ∧
    tick_do_update_jiffies64 4 10 ⟨100, 0, 4⟩ = ⟨102, 8, 12⟩ := by
  have h := (C1_tick_do_update_jiffies64_correct 4 (by norm_num)).1 10 ⟨100, 0, 4⟩
    (by norm_num)
  obtain ⟨h1, h2, h3⟩ := h
  refine ⟨by norm_num, ?_⟩
  refine TimeBase.ext ?_ ?_ ?_
  · rw [h1]; decide
  · rw [h2]; decide
  · rw [h3, h2]; decide

/-! ## C10: `cpu_get_nohz_target` -/

/-- C10: for `cpu ∈ [0, NR_CPUS)` the target is `cpu` itself when the
CPU's `nohz_on` flag is clear, and otherwise the first CPU of its
domain `(cpu / ncpus_per_dom) * ncpus_per_dom`, which for positive
`ncpus_per_dom` never exceeds `cpu`; outside the valid range the
argument comes back unchanged. -/
theorem C10_cpu_get_nohz_target_correct (nohz_on : Int → Int)
    (n nr cpu : Int) :
    (0 ≤ cpu → cpu < nr →
      (nohz_on cpu = 0 → cpu_get_nohz_target nohz_on n nr cpu = cpu) ∧
      (nohz_on cpu ≠ 0 →
        cpu_get_nohz_target nohz_on n nr cpu = (Int.tdiv cpu n) * n ∧
        (0 < n → cpu_get_nohz_target nohz_on n nr cpu ≤ cpu))) ∧
    (¬ (0 ≤ cpu ∧ cpu < nr) → cpu_get_nohz_target nohz_on n nr cpu = cpu) := by
  constructor
  · intro h0 hlt
    constructor
    · intro hz; simp [cpu_get_nohz_target, h0, hlt, hz]
    · intro hnz
      have heq : cpu_get_nohz_target nohz_on n nr cpu = (Int.tdiv cpu n) * n := by
        simp [cpu_get_nohz_target, h0, hlt, hnz]
      refine ⟨heq, fun hn => ?_⟩
      rw [heq, Int.tdiv_eq_ediv h0 (le_of_lt hn)]
      exact Int.ediv_mul_le cpu (ne_of_gt hn)
  · intro h; simp [cpu_get_nohz_target, h]

/-- Witness for C10: CPU 5 with the flag set in a 4-CPU domain maps to
CPU 4. -/
theorem C10_witness :
    cpu_get_nohz_target (fun c => if c = 5 then 1 else 0) 4 8 5 = 4 ∧
    cpu_get_nohz_target (fun c => if c = 5 then 1 else 0) 4 8 5 ≤ 5 := by
  have h := (C10_cpu_get_nohz_target_correct (fun c => if c = 5 then 1 else 0)
    4 8 5).1 (by norm_num) (by norm_num)
  have h2 := h.2 (by norm_num)
  exact ⟨by rw [h2.1]; decide, h2.2 (by norm_num)⟩

/-! ## C2: duty coordination inside `tick_nohz_stop_sched_tick` -/

/-- The clamped delta never exceeds the unclamped one. -/
theorem stop_clamped_delta_le (p d td : Int) :
    stop_clamped_delta p d td ≤ td := by
  unfold stop_clamped_delta
  split
  · exact min_le_left _ _
  · exact le_rfl

/-- With a bounded `time_delta` the computed expiry stays within
`last_update + time_delta`. -/
theorem stop_expires_le {p d td lu : Int} (h : td < KTIME_MAX) :
    stop_expires p d td lu ≤ lu + td := by
  unfold stop_expires
  rw [if_pos (lt_of_le_of_lt (stop_clamped_delta_le p d td) h)]
  have := stop_clamped_delta_le p d td
  linarith

/-- The environment of the claimed scenario: two busy-adaptive CPUs,
the next software timer 50 ticks away, the idle caller not itself part
of an adaptive set. -/
def envC2 : StopEnv :=
  { forced := false, next_timer := 150, max_deferment := 100000000
    ctx := { isIdleTask := true, adaptiveSelf := false }
    flagOf := fun _ => false, programOk := true, now2 := 0 }

/-- Globals of the claimed scenario: `duty_cpu = NONE`,
`busy_adaptive_count = 2`. -/
def gC2 : Globals :=
  { jiffies := 100, last_jiffies_update := 100000, tick_next_period := 101000
    tick_do_timer_cpu := TICK_DO_TIMER_NONE, nr_cpus_user_nohz := 2 }

/-- C2 counterexample: in the claimed scenario
(`busy_adaptive_count = 2`, `duty_cpu = NONE`, idle CPU 0 calling
`stop_tick` with a 50-tick gap) the CPU does claim the duty
(`tick_do_timer_cpu` becomes 0), but the tick is *not* stopped: the
function bails out with no hardware program and a zero return — there
is no capped-expiry stop. -/
theorem C2_counterexample :
    (tick_nohz_stop_sched_tick 1000 envC2 0 100500 ts0 gC2 101000).g.tick_do_timer_cpu
        = 0 ∧
    (tick_nohz_stop_sched_tick 1000 envC2 0 100500 ts0 gC2 101000).ts.tick_stopped
        = false ∧
    (tick_nohz_stop_sched_tick 1000 envC2 0 100500 ts0 gC2 101000).programs = 0 ∧
    (tick_nohz_stop_sched_tick 1000 envC2 0 100500 ts0 gC2 101000).ret = 0 := by
  decide

/-- C2 (amended): whenever the duty-coordination step results in this
CPU claiming or retaining timekeeping duty
(`check_drop_timer_duty = cpu`), `tick_nohz_stop_sched_tick` abandons
suppression: it programs nothing, cancels nothing, returns 0 and
leaves `tick_stopped` unchanged — the CPU keeps ticking to run
timekeeping.  The max-deferment cap applies instead to the CPU that
held the duty immediately before the call (`prev_handler == cpu`)
after it drops or defers the duty: any expiry it arms is at most
`last_update + max_safe_deferment`. -/
theorem C2_duty_keep_aborts_stop (tick_period : Ktime) (env : StopEnv)
    (cpu : Int) (now : Ktime) (ts : TS) (g : Globals) (devNext : Ktime) :
    ((check_drop_timer_duty cpu env.ctx g.tick_do_timer_cpu
        g.nr_cpus_user_nohz env.flagOf).1 = cpu →
      (tick_nohz_stop_sched_tick tick_period env cpu now ts g devNext).programs = 0 ∧
      (tick_nohz_stop_sched_tick tick_period env cpu now ts g devNext).cancels = 0 ∧
      (tick_nohz_stop_sched_tick tick_period env cpu now ts g devNext).ret = 0 ∧
      (tick_nohz_stop_sched_tick tick_period env cpu now ts g devNext).ts.tick_stopped
        = ts.tick_stopped) ∧
    (g.tick_do_timer_cpu = cpu → env.max_deferment < KTIME_MAX →
      ((tick_nohz_stop_sched_tick tick_period env cpu now ts g devNext).ret = 0 ∨
       (tick_nohz_stop_sched_tick tick_period env cpu now ts g devNext).ret
         ≤ g.last_jiffies_update + env.max_deferment)) := by
  constructor
  · intro hkeep
    simp only [tick_nohz_stop_sched_tick]
    by_cases h1 : ¬ts.tick_stopped = true ∧ stop_delta_jiffies env g = 1
    · rw [if_pos h1]; exact ⟨rfl, rfl, rfl, rfl⟩
    · rw [if_neg h1]
      by_cases h2 : 1 ≤ stop_delta_jiffies env g
      · rw [if_pos h2, if_pos hkeep]
        exact ⟨rfl, rfl, rfl, rfl⟩
      · rw [if_neg h2]; exact ⟨rfl, rfl, rfl, rfl⟩
  · intro hprev hmdlt
    have htd : stop_cap_delta cpu g.tick_do_timer_cpu
        (check_drop_timer_duty cpu env.ctx g.tick_do_timer_cpu
          g.nr_cpus_user_nohz env.flagOf).1
        ts.do_timer_last env.max_deferment = env.max_deferment := by
      rw [hprev]; unfold stop_cap_delta; rw [if_pos rfl]
    have hexp : stop_expires tick_period (stop_delta_jiffies env g)
        (stop_cap_delta cpu g.tick_do_timer_cpu
          (check_drop_timer_duty cpu env.ctx g.tick_do_timer_cpu
            g.nr_cpus_user_nohz env.flagOf).1
          ts.do_timer_last env.max_deferment) g.last_jiffies_update
        ≤ g.last_jiffies_update + env.max_deferment := by
      rw [htd]; exact stop_expires_le hmdlt
    simp only [tick_nohz_stop_sched_tick]
    by_cases h1 : ¬ts.tick_stopped = true ∧ stop_delta_jiffies env g = 1
    · rw [if_pos h1]; left; rfl
    rw [if_neg h1]
    by_cases h2 : 1 ≤ stop_delta_jiffies env g
    case neg => rw [if_neg h2]; left; rfl
    rw [if_pos h2]
    by_cases h3 : (check_drop_timer_duty cpu env.ctx g.tick_do_timer_cpu
        g.nr_cpus_user_nohz env.flagOf).1 = cpu
    case pos => rw [if_pos h3]; left; rfl
    rw [if_neg h3]
    by_cases h4 : (stop_cap_ts cpu g.tick_do_timer_cpu
          (check_drop_timer_duty cpu env.ctx g.tick_do_timer_cpu
            g.nr_cpus_user_nohz env.flagOf).1 ts).tick_stopped = true ∧
        stop_expires tick_period (stop_delta_jiffies env g)
          (stop_cap_delta cpu g.tick_do_timer_cpu
            (check_drop_timer_duty cpu env.ctx g.tick_do_timer_cpu
              g.nr_cpus_user_nohz env.flagOf).1
            ts.do_timer_last env.max_deferment) g.last_jiffies_update = devNext
    case pos => rw [if_pos h4]; left; rfl
    rw [if_neg h4]
    by_cases h5 : stop_expires tick_period (stop_delta_jiffies env g)
        (stop_cap_delta cpu g.tick_do_timer_cpu
          (check_drop_timer_duty cpu env.ctx g.tick_do_timer_cpu
            g.nr_cpus_user_nohz env.flagOf).1
          ts.do_timer_last env.max_deferment) g.last_jiffies_update = KTIME_MAX
    · rw [if_pos h5]
      split <;> (right; exact hexp)
    · rw [if_neg h5]
      by_cases h7 : env.programOk = true
      · rw [if_pos h7]; right; exact hexp
      · rw [if_neg h7]; right; exact hexp

/-- Witness for C2 (amended): in the claimed scenario the duty is kept
and the stop aborted; with this CPU as previous holder instead, the
returned expiry respects the deferment cap. -/
theorem C2_witness :
    ((tick_nohz_stop_sched_tick 1000 envC2 0 100500 ts0 gC2 101000).programs = 0 ∧
     (tick_nohz_stop_sched_tick 1000 envC2 0 100500 ts0 gC2 101000).cancels = 0 ∧
     (tick_nohz_stop_sched_tick 1000 envC2 0 100500 ts0 gC2 101000).ret = 0 ∧
     (tick_nohz_stop_sched_tick 1000 envC2 0 100500 ts0 gC2 101000).ts.tick_stopped
       = ts0.tick_stopped) ∧
    ((tick_nohz_stop_sched_tick 1000 envC2 0 100500 ts0
        { gC2 with tick_do_timer_cpu := 0, nr_cpus_user_nohz := 0 } 101000).ret = 0 ∨
     (tick_nohz_stop_sched_tick 1000 envC2 0 100500 ts0
        { gC2 with tick_do_timer_cpu := 0, nr_cpus_user_nohz := 0 } 101000).ret
       ≤ { gC2 with tick_do_timer_cpu := (0 : Int), nr_cpus_user_nohz := (0 : Int) }.last_jiffies_update
           + envC2.max_deferment) :=
  ⟨(C2_duty_keep_aborts_stop 1000 envC2 0 100500 ts0 gC2 101000).1 (by decide),
   (C2_duty_keep_aborts_stop 1000 envC2 0 100500 ts0
      { gC2 with tick_do_timer_cpu := 0, nr_cpus_user_nohz := 0 } 101000).2
     (by decide) (by decide)⟩

/-! ## C6 machinery: path characterisations and stability lemmas -/

@[simp]
theorem stop_stopped_ts_tick_stopped (ts1 : TS) :
    (stop_stopped_ts ts1).tick_stopped = true := by
  unfold stop_stopped_ts; split <;> simp_all

@[simp]
theorem stop_stopped_ts_do_timer_last (ts1 : TS) :
    (stop_stopped_ts ts1).do_timer_last = ts1.do_timer_last := by
  unfold stop_stopped_ts; split <;> rfl

@[simp]
theorem stop_highres_ts_tick_stopped (e : Ktime) (ts2 : TS) :
    (stop_highres_ts e ts2).tick_stopped = ts2.tick_stopped := by
  unfold stop_highres_ts; split <;> rfl

@[simp]
theorem stop_highres_ts_do_timer_last (e : Ktime) (ts2 : TS) :
    (stop_highres_ts e ts2).do_timer_last = ts2.do_timer_last := by
  unfold stop_highres_ts; split <;> rfl

/-- Closed form of the interference-free `check_drop_timer_duty` for a
real CPU id (`cpu ≠ TICK_DO_TIMER_NONE`). -/
theorem check_drop_timer_duty_eq (cpu : Int) (ctx : DutyCtx) (duty nr : Int)
    (flagOf : Int → Bool) (hcpu : cpu ≠ TICK_DO_TIMER_NONE) :
    check_drop_timer_duty cpu ctx duty nr flagOf =
      if nr > 0 then
        if duty = cpu then (cpu, duty)
        else if duty = TICK_DO_TIMER_NONE ∨
            (flagOf duty ∧ (ctx.isIdleTask ∨ ¬ ctx.adaptiveSelf)) then (cpu, cpu)
        else (duty, duty)
      else if duty = cpu then (TICK_DO_TIMER_NONE, TICK_DO_TIMER_NONE)
      else (duty, duty) := by
  unfold check_drop_timer_duty check_drop_iter obsOf
  by_cases h1 : nr > 0
  · simp only [if_pos h1]
    by_cases h2 : duty = cpu
    · simp [h2]
    · simp only [if_neg h2]
      by_cases h3 : duty = TICK_DO_TIMER_NONE ∨
          (flagOf duty = true ∧ (ctx.isIdleTask = true ∨ ctx.adaptiveSelf = false))
      · simp [h3, hcpu]
      · have hdN : ¬ duty = TICK_DO_TIMER_NONE := fun h => h3 (Or.inl h)
        have hconj : ¬ (flagOf duty = true ∧
            (ctx.isIdleTask = true ∨ ctx.adaptiveSelf = false)) :=
          fun h => h3 (Or.inr h)
        simp [hconj, hdN]
  · simp only [if_neg h1]
    by_cases h2 : duty = cpu
    · simp [h1, h2]
    · simp [h1, h2]

/-- After a call that did not leave the duty with this CPU, the duty
registry is stable: the recorded holder is the returned value, an
immediately following call returns the same holder and changes
nothing, and if the caller was the previous holder the drop left
`NONE`. -/
theorem check_drop_stable (cpu : Int) (ctx : DutyCtx) (duty nr : Int)
    (flagOf : Int → Bool) (hcpu : cpu ≠ TICK_DO_TIMER_NONE)
    (hne : (check_drop_timer_duty cpu ctx duty nr flagOf).1 ≠ cpu) :
    (check_drop_timer_duty cpu ctx duty nr flagOf).2
      = (check_drop_timer_duty cpu ctx duty nr flagOf).1 ∧
    check_drop_timer_duty cpu ctx
        (check_drop_timer_duty cpu ctx duty nr flagOf).1 nr flagOf
      = ((check_drop_timer_duty cpu ctx duty nr flagOf).1,
         (check_drop_timer_duty cpu ctx duty nr flagOf).1) ∧
    (duty = cpu →
      (check_drop_timer_duty cpu ctx duty nr flagOf).1 = TICK_DO_TIMER_NONE) := by
  rw [check_drop_timer_duty_eq cpu ctx duty nr flagOf hcpu] at hne ⊢
  by_cases h1 : nr > 0
  · rw [if_pos h1] at hne ⊢
    by_cases h2 : duty = cpu
    · rw [if_pos h2] at hne; exact absurd rfl hne
    · rw [if_neg h2] at hne ⊢
      by_cases h3 : duty = TICK_DO_TIMER_NONE ∨
          (flagOf duty ∧ (ctx.isIdleTask ∨ ¬ ctx.adaptiveSelf))
      · rw [if_pos h3] at hne; exact absurd rfl hne
      · rw [if_neg h3] at hne ⊢
        refine ⟨rfl, ?_, fun h => absurd h h2⟩
        show check_drop_timer_duty cpu ctx duty nr flagOf = (duty, duty)
        rw [check_drop_timer_duty_eq cpu ctx duty nr flagOf hcpu, if_pos h1,
          if_neg h2, if_neg h3]
  · rw [if_neg h1] at hne ⊢
    by_cases h2 : duty = cpu
    · rw [if_pos h2] at hne ⊢
      refine ⟨rfl, ?_, fun _ => rfl⟩
      show check_drop_timer_duty cpu ctx TICK_DO_TIMER_NONE nr flagOf
        = (TICK_DO_TIMER_NONE, TICK_DO_TIMER_NONE)
      rw [check_drop_timer_duty_eq cpu ctx _ nr flagOf hcpu, if_neg h1,
        if_neg (fun h => hcpu h.symm)]
    · rw [if_neg h2] at hne ⊢
      refine ⟨rfl, ?_, fun h => absurd h h2⟩
      show check_drop_timer_duty cpu ctx duty nr flagOf = (duty, duty)
      rw [check_drop_timer_duty_eq cpu ctx duty nr flagOf hcpu, if_neg h1,
        if_neg h2]

/-- The duty/cap block is idempotent across two calls: with the duty
holder now being the first call's result `v ≠ cpu`, the second call
changes neither the per-CPU state nor the selected `time_delta`. -/
theorem stop_cap_stable (cpu duty v : Int) (ts ts' : TS) (maxdef : Int)
    (hvc : v ≠ cpu) (hdn : duty = cpu → v = TICK_DO_TIMER_NONE)
    (hdtl : ts'.do_timer_last = (stop_cap_ts cpu duty v ts).do_timer_last) :
    stop_cap_ts cpu v v ts' = ts' ∧
    stop_cap_delta cpu v v ts'.do_timer_last maxdef
      = stop_cap_delta cpu duty v ts.do_timer_last maxdef := by
  by_cases hd : duty = cpu
  · have hvN := hdn hd
    subst hvN
    subst hd
    have hdtl' : ts'.do_timer_last = true := by
      simpa [stop_cap_ts] using hdtl
    constructor
    · simp [stop_cap_ts, hvc]
    · simp [stop_cap_delta, hvc, hdtl']
  · by_cases hvN : v = TICK_DO_TIMER_NONE
    · subst hvN
      have hdtl' : ts'.do_timer_last = ts.do_timer_last := by
        simpa [stop_cap_ts, hd] using hdtl
      constructor
      · simp [stop_cap_ts, hvc]
      · simp [stop_cap_delta, hvc, hd, hdtl']
    · have hdtl' : ts'.do_timer_last = false := by
        simpa [stop_cap_ts, hd, hvN] using hdtl
      constructor
      · unfold stop_cap_ts
        rw [if_neg hvc, if_pos hvN]
        ext <;> simp [hdtl']
      · simp [stop_cap_delta, hvc, hd, hvN, hdtl']

/-- Path characterisation: the successful-arm path.  All branch
conditions plus a successful hardware program give the armed result. -/
theorem stop_tick_arm (tick_period : Ktime) (env : StopEnv) (cpu : Int)
    (now : Ktime) (ts : TS) (g : Globals) (devNext : Ktime)
    (h1 : ¬ (¬ ts.tick_stopped = true ∧ stop_delta_jiffies env g = 1))
    (h2 : 1 ≤ stop_delta_jiffies env g)
    (h3 : (check_drop_timer_duty cpu env.ctx g.tick_do_timer_cpu
      g.nr_cpus_user_nohz env.flagOf).1 ≠ cpu)
    (h4 : ¬ ((stop_cap_ts cpu g.tick_do_timer_cpu
          (check_drop_timer_duty cpu env.ctx g.tick_do_timer_cpu
            g.nr_cpus_user_nohz env.flagOf).1 ts).tick_stopped = true ∧
        stop_expires tick_period (stop_delta_jiffies env g)
          (stop_cap_delta cpu g.tick_do_timer_cpu
            (check_drop_timer_duty cpu env.ctx g.tick_do_timer_cpu
              g.nr_cpus_user_nohz env.flagOf).1
            ts.do_timer_last env.max_deferment) g.last_jiffies_update = devNext))
    (h5 : stop_expires tick_period (stop_delta_jiffies env g)
        (stop_cap_delta cpu g.tick_do_timer_cpu
          (check_drop_timer_duty cpu env.ctx g.tick_do_timer_cpu
            g.nr_cpus_user_nohz env.flagOf).1
          ts.do_timer_last env.max_deferment) g.last_jiffies_update ≠ KTIME_MAX)
    (hok : env.programOk = true) :
    tick_nohz_stop_sched_tick tick_period env cpu now ts g devNext =
      { ts := { stop_highres_ts
                  (stop_expires tick_period (stop_delta_jiffies env g)
                    (stop_cap_delta cpu g.tick_do_timer_cpu
                      (check_drop_timer_duty cpu env.ctx g.tick_do_timer_cpu
                        g.nr_cpus_user_nohz env.flagOf).1
                      ts.do_timer_last env.max_deferment) g.last_jiffies_update)
                  (stop_stopped_ts
                    (stop_cap_ts cpu g.tick_do_timer_cpu
                      (check_drop_timer_duty cpu env.ctx g.tick_do_timer_cpu
                        g.nr_cpus_user_nohz env.flagOf).1 ts)) with
                next_jiffies := stop_next_jiffies env g
                last_jiffies := g.jiffies
                sleep_length :=
                  stop_expires tick_period (stop_delta_jiffies env g)
                    (stop_cap_delta cpu g.tick_do_timer_cpu
                      (check_drop_timer_duty cpu env.ctx g.tick_do_timer_cpu
                        g.nr_cpus_user_nohz env.flagOf).1
                      ts.do_timer_last env.max_deferment) g.last_jiffies_update
                    - now }
        g := { g with tick_do_timer_cpu :=
                (check_drop_timer_duty cpu env.ctx g.tick_do_timer_cpu
                  g.nr_cpus_user_nohz env.flagOf).2 }
        dev_next_event :=
          stop_expires tick_period (stop_delta_jiffies env g)
            (stop_cap_delta cpu g.tick_do_timer_cpu
              (check_drop_timer_duty cpu env.ctx g.tick_do_timer_cpu
                g.nr_cpus_user_nohz env.flagOf).1
              ts.do_timer_last env.max_deferment) g.last_jiffies_update
        ret :=
          stop_expires tick_period (stop_delta_jiffies env g)
            (stop_cap_delta cpu g.tick_do_timer_cpu
              (check_drop_timer_duty cpu env.ctx g.tick_do_timer_cpu
                g.nr_cpus_user_nohz env.flagOf).1
              ts.do_timer_last env.max_deferment) g.last_jiffies_update
        programs := 1, cancels := 0, softirqRaised := false } := by
  simp only [tick_nohz_stop_sched_tick]
  rw [if_neg h1, if_pos h2, if_neg h3, if_neg h4, if_neg h5, if_pos hok]

/-- Path characterisation: the skip path — tick already stopped and
the freshly computed expiry equal to the armed one means no program,
no cancel, a zero return, and only the duty/cap bookkeeping runs. -/
theorem stop_tick_skip (tick_period : Ktime) (env : StopEnv) (cpu : Int)
    (now : Ktime) (ts : TS) (g : Globals) (devNext : Ktime)
    (h1 : ¬ (¬ ts.tick_stopped = true ∧ stop_delta_jiffies env g = 1))
    (h2 : 1 ≤ stop_delta_jiffies env g)
    (h3 : (check_drop_timer_duty cpu env.ctx g.tick_do_timer_cpu
      g.nr_cpus_user_nohz env.flagOf).1 ≠ cpu)
    (h4 : (stop_cap_ts cpu g.tick_do_timer_cpu
          (check_drop_timer_duty cpu env.ctx g.tick_do_timer_cpu
            g.nr_cpus_user_nohz env.flagOf).1 ts).tick_stopped = true ∧
        stop_expires tick_period (stop_delta_jiffies env g)
          (stop_cap_delta cpu g.tick_do_timer_cpu
            (check_drop_timer_duty cpu env.ctx g.tick_do_timer_cpu
              g.nr_cpus_user_nohz env.flagOf).1
            ts.do_timer_last env.max_deferment) g.last_jiffies_update = devNext) :
    tick_nohz_stop_sched_tick tick_period env cpu now ts g devNext =
      { ts := { stop_cap_ts cpu g.tick_do_timer_cpu
                  (check_drop_timer_duty cpu env.ctx g.tick_do_timer_cpu
                    g.nr_cpus_user_nohz env.flagOf).1 ts with
                next_jiffies := stop_next_jiffies env g
                last_jiffies := g.jiffies
                sleep_length := devNext - now }
        g := { g with tick_do_timer_cpu :=
                (check_drop_timer_duty cpu env.ctx g.tick_do_timer_cpu
                  g.nr_cpus_user_nohz env.flagOf).2 }
        dev_next_event := devNext, ret := 0, programs := 0, cancels := 0
        softirqRaised := false } := by
  simp only [tick_nohz_stop_sched_tick]
  rw [if_neg h1, if_pos h2, if_neg h3, if_pos h4]

/-- C6: `tick_nohz_stop_sched_tick` is idempotent once armed.  If a
call takes the arm path (tick gets stopped, hardware programmed once,
expiry recorded as `dev_next_event`), then an immediately repeated
call with no intervening change finds the tick already stopped and the
freshly computed expiry equal to the armed one: it performs no
hardware reprogram (and no cancel) and changes neither the per-CPU
tick state nor the globals nor the armed expiry — across the two calls
the hardware timer is programmed exactly once. -/
theorem C6_stop_tick_idempotent (tick_period : Ktime) (env : StopEnv)
    (cpu : Int) (now : Ktime) (ts : TS) (g : Globals) (devNext : Ktime)
    (r1 : StopResult)
    (hcpu : cpu ≠ TICK_DO_TIMER_NONE)
    (h1 : ¬ (¬ ts.tick_stopped = true ∧ stop_delta_jiffies env g = 1))
    (h2 : 1 ≤ stop_delta_jiffies env g)
    (h3 : (check_drop_timer_duty cpu env.ctx g.tick_do_timer_cpu
      g.nr_cpus_user_nohz env.flagOf).1 ≠ cpu)
    (h4 : ¬ ((stop_cap_ts cpu g.tick_do_timer_cpu
          (check_drop_timer_duty cpu env.ctx g.tick_do_timer_cpu
            g.nr_cpus_user_nohz env.flagOf).1 ts).tick_stopped = true ∧
        stop_expires tick_period (stop_delta_jiffies env g)
          (stop_cap_delta cpu g.tick_do_timer_cpu
            (check_drop_timer_duty cpu env.ctx g.tick_do_timer_cpu
              g.nr_cpus_user_nohz env.flagOf).1
            ts.do_timer_last env.max_deferment) g.last_jiffies_update = devNext))
    (h5 : stop_expires tick_period (stop_delta_jiffies env g)
        (stop_cap_delta cpu g.tick_do_timer_cpu
          (check_drop_timer_duty cpu env.ctx g.tick_do_timer_cpu
            g.nr_cpus_user_nohz env.flagOf).1
          ts.do_timer_last env.max_deferment) g.last_jiffies_update ≠ KTIME_MAX)
    (hok : env.programOk = true)
    (hr1 : tick_nohz_stop_sched_tick tick_period env cpu now ts g devNext = r1) :
    r1.programs = 1 ∧
    (tick_nohz_stop_sched_tick tick_period env cpu now r1.ts r1.g
      r1.dev_next_event).programs = 0 ∧
    (tick_nohz_stop_sched_tick tick_period env cpu now r1.ts r1.g
      r1.dev_next_event).cancels = 0 ∧
    (tick_nohz_stop_sched_tick tick_period env cpu now r1.ts r1.g
      r1.dev_next_event).ts = r1.ts ∧
    (tick_nohz_stop_sched_tick tick_period env cpu now r1.ts r1.g
      r1.dev_next_event).g = r1.g ∧
    (tick_nohz_stop_sched_tick tick_period env cpu now r1.ts r1.g
      r1.dev_next_event).dev_next_event = r1.dev_next_event := by
  rw [stop_tick_arm tick_period env cpu now ts g devNext h1 h2 h3 h4 h5 hok] at hr1
  have hts : r1.ts =
      { stop_highres_ts
          (stop_expires tick_period (stop_delta_jiffies env g)
            (stop_cap_delta cpu g.tick_do_timer_cpu
              (check_drop_timer_duty cpu env.ctx g.tick_do_timer_cpu
                g.nr_cpus_user_nohz env.flagOf).1
              ts.do_timer_last env.max_deferment) g.last_jiffies_update)
          (stop_stopped_ts
            (stop_cap_ts cpu g.tick_do_timer_cpu
              (check_drop_timer_duty cpu env.ctx g.tick_do_timer_cpu
                g.nr_cpus_user_nohz env.flagOf).1 ts)) with
        next_jiffies := stop_next_jiffies env g
        last_jiffies := g.jiffies
        sleep_length :=
          stop_expires tick_period (stop_delta_jiffies env g)
            (stop_cap_delta cpu g.tick_do_timer_cpu
              (check_drop_timer_duty cpu env.ctx g.tick_do_timer_cpu
                g.nr_cpus_user_nohz env.flagOf).1
              ts.do_timer_last env.max_deferment) g.last_jiffies_update
            - now } := by rw [← hr1]
  have hgg : r1.g = { g with tick_do_timer_cpu :=
      (check_drop_timer_duty cpu env.ctx g.tick_do_timer_cpu
        g.nr_cpus_user_nohz env.flagOf).2 } := by rw [← hr1]
  have hdev : r1.dev_next_event =
      stop_expires tick_period (stop_delta_jiffies env g)
        (stop_cap_delta cpu g.tick_do_timer_cpu
          (check_drop_timer_duty cpu env.ctx g.tick_do_timer_cpu
            g.nr_cpus_user_nohz env.flagOf).1
          ts.do_timer_last env.max_deferment) g.last_jiffies_update := by
    rw [← hr1]
  have hprog : r1.programs = 1 := by rw [← hr1]
  obtain ⟨hcd2, hcd22, hdn⟩ := check_drop_stable cpu env.ctx g.tick_do_timer_cpu
    g.nr_cpus_user_nohz env.flagOf hcpu h3
  have hstopped : r1.ts.tick_stopped = true := by rw [hts]; simp
  have hdtl : r1.ts.do_timer_last =
      (stop_cap_ts cpu g.tick_do_timer_cpu
        (check_drop_timer_duty cpu env.ctx g.tick_do_timer_cpu
          g.nr_cpus_user_nohz env.flagOf).1 ts).do_timer_last := by
    rw [hts]; simp
  obtain ⟨hcap_ts, hcap_td⟩ := stop_cap_stable cpu g.tick_do_timer_cpu
    (check_drop_timer_duty cpu env.ctx g.tick_do_timer_cpu
      g.nr_cpus_user_nohz env.flagOf).1 ts r1.ts env.max_deferment h3 hdn hdtl
  have s1 : ¬ (¬ r1.ts.tick_stopped = true ∧
      stop_delta_jiffies env r1.g = 1) := fun hcon => hcon.1 hstopped
  have s2 : 1 ≤ stop_delta_jiffies env r1.g := by rw [hgg]; exact h2
  have s3 : (check_drop_timer_duty cpu env.ctx r1.g.tick_do_timer_cpu
      r1.g.nr_cpus_user_nohz env.flagOf).1 ≠ cpu := by
    rw [hgg, hcd2]
    show (check_drop_timer_duty cpu env.ctx
      (check_drop_timer_duty cpu env.ctx g.tick_do_timer_cpu
        g.nr_cpus_user_nohz env.flagOf).1
      g.nr_cpus_user_nohz env.flagOf).1 ≠ cpu
    rw [hcd22]
    exact h3
  have s4 : (stop_cap_ts cpu r1.g.tick_do_timer_cpu
        (check_drop_timer_duty cpu env.ctx r1.g.tick_do_timer_cpu
          r1.g.nr_cpus_user_nohz env.flagOf).1 r1.ts).tick_stopped = true ∧
      stop_expires tick_period (stop_delta_jiffies env r1.g)
        (stop_cap_delta cpu r1.g.tick_do_timer_cpu
          (check_drop_timer_duty cpu env.ctx r1.g.tick_do_timer_cpu
            r1.g.nr_cpus_user_nohz env.flagOf).1
          r1.ts.do_timer_last env.max_deferment) r1.g.last_jiffies_update
        = r1.dev_next_event := by
    constructor
    · rw [hgg, hcd2]
      show (stop_cap_ts cpu
        (check_drop_timer_duty cpu env.ctx g.tick_do_timer_cpu
          g.nr_cpus_user_nohz env.flagOf).1
        (check_drop_timer_duty cpu env.ctx
          (check_drop_timer_duty cpu env.ctx g.tick_do_timer_cpu
            g.nr_cpus_user_nohz env.flagOf).1
          g.nr_cpus_user_nohz env.flagOf).1 r1.ts).tick_stopped = true
      rw [hcd22]
      show (stop_cap_ts cpu
        (check_drop_timer_duty cpu env.ctx g.tick_do_timer_cpu
          g.nr_cpus_user_nohz env.flagOf).1
        (check_drop_timer_duty cpu env.ctx g.tick_do_timer_cpu
          g.nr_cpus_user_nohz env.flagOf).1 r1.ts).tick_stopped = true
      rw [hcap_ts]
      exact hstopped
    · rw [hgg, hcd2, hdev]
      show stop_expires tick_period (stop_delta_jiffies env g)
        (stop_cap_delta cpu
          (check_drop_timer_duty cpu env.ctx g.tick_do_timer_cpu
            g.nr_cpus_user_nohz env.flagOf).1
          (check_drop_timer_duty cpu env.ctx
            (check_drop_timer_duty cpu env.ctx g.tick_do_timer_cpu
              g.nr_cpus_user_nohz env.flagOf).1
            g.nr_cpus_user_nohz env.flagOf).1
          r1.ts.do_timer_last env.max_deferment) g.last_jiffies_update
        = stop_expires tick_period (stop_delta_jiffies env g)
            (stop_cap_delta cpu g.tick_do_timer_cpu
              (check_drop_timer_duty cpu env.ctx g.tick_do_timer_cpu
                g.nr_cpus_user_nohz env.flagOf).1
              ts.do_timer_last env.max_deferment) g.last_jiffies_update
      rw [hcd22]
      show stop_expires tick_period (stop_delta_jiffies env g)
        (stop_cap_delta cpu
          (check_drop_timer_duty cpu env.ctx g.tick_do_timer_cpu
            g.nr_cpus_user_nohz env.flagOf).1
          (check_drop_timer_duty cpu env.ctx g.tick_do_timer_cpu
            g.nr_cpus_user_nohz env.flagOf).1
          r1.ts.do_timer_last env.max_deferment) g.last_jiffies_update
        = stop_expires tick_period (stop_delta_jiffies env g)
            (stop_cap_delta cpu g.tick_do_timer_cpu
              (check_drop_timer_duty cpu env.ctx g.tick_do_timer_cpu
                g.nr_cpus_user_nohz env.flagOf).1
              ts.do_timer_last env.max_deferment) g.last_jiffies_update
      rw [hcap_td]
  have hskip := stop_tick_skip tick_period env cpu now r1.ts r1.g
    r1.dev_next_event s1 s2 s3 s4
  refine ⟨hprog, ?_, ?_, ?_, ?_, ?_⟩
  · rw [hskip]
  · rw [hskip]
  · rw [hskip]
    rw [hgg, hcd2]
    show { stop_cap_ts cpu
        (check_drop_timer_duty cpu env.ctx g.tick_do_timer_cpu
          g.nr_cpus_user_nohz env.flagOf).1
        (check_drop_timer_duty cpu env.ctx
          (check_drop_timer_duty cpu env.ctx g.tick_do_timer_cpu
            g.nr_cpus_user_nohz env.flagOf).1
          g.nr_cpus_user_nohz env.flagOf).1 r1.ts with
        next_jiffies := stop_next_jiffies env g
        last_jiffies := g.jiffies
        sleep_length := r1.dev_next_event - now } = r1.ts
    rw [hcd22]
    show { stop_cap_ts cpu
        (check_drop_timer_duty cpu env.ctx g.tick_do_timer_cpu
          g.nr_cpus_user_nohz env.flagOf).1
        (check_drop_timer_duty cpu env.ctx g.tick_do_timer_cpu
          g.nr_cpus_user_nohz env.flagOf).1 r1.ts with
        next_jiffies := stop_next_jiffies env g
        last_jiffies := g.jiffies
        sleep_length := r1.dev_next_event - now } = r1.ts
    rw [hcap_ts, hdev, hts]
  · rw [hskip]
    rw [hgg, hcd2]
    show { ({ g with tick_do_timer_cpu :=
        (check_drop_timer_duty cpu env.ctx g.tick_do_timer_cpu
          g.nr_cpus_user_nohz env.flagOf).1 } : Globals) with
        tick_do_timer_cpu :=
          (check_drop_timer_duty cpu env.ctx
            (check_drop_timer_duty cpu env.ctx g.tick_do_timer_cpu
              g.nr_cpus_user_nohz env.flagOf).1
            g.nr_cpus_user_nohz env.flagOf).2 }
      = ({ g with tick_do_timer_cpu :=
          (check_drop_timer_duty cpu env.ctx g.tick_do_timer_cpu
            g.nr_cpus_user_nohz env.flagOf).1 } : Globals)
    rw [hcd22]
  · rw [hskip]

/-- Globals for the C6 witness: another CPU holds the duty, no
busy-adaptive CPUs. -/
def gC6 : Globals :=
  { jiffies := 100, last_jiffies_update := 100000, tick_next_period := 101000
    tick_do_timer_cpu := 5, nr_cpus_user_nohz := 0 }

/-- Witness for C6: a first call that stops the tick and arms the
timer at 150000, followed by an identical second call that programs
nothing and changes nothing. -/
theorem C6_witness :
    (tick_nohz_stop_sched_tick 1000 envC2 0 100500 ts0 gC6 0).programs = 1 ∧
    (tick_nohz_stop_sched_tick 1000 envC2 0 100500
      (tick_nohz_stop_sched_tick 1000 envC2 0 100500 ts0 gC6 0).ts
      (tick_nohz_stop_sched_tick 1000 envC2 0 100500 ts0 gC6 0).g
      (tick_nohz_stop_sched_tick 1000 envC2 0 100500 ts0 gC6 0).dev_next_event).programs
        = 0 ∧
    (tick_nohz_stop_sched_tick 1000 envC2 0 100500
      (tick_nohz_stop_sched_tick 1000 envC2 0 100500 ts0 gC6 0).ts
      (tick_nohz_stop_sched_tick 1000 envC2 0 100500 ts0 gC6 0).g
      (tick_nohz_stop_sched_tick 1000 envC2 0 100500 ts0 gC6 0).dev_next_event).cancels
        = 0 ∧
    (tick_nohz_stop_sched_tick 1000 envC2 0 100500
      (tick_nohz_stop_sched_tick 1000 envC2 0 100500 ts0 gC6 0).ts
      (tick_nohz_stop_sched_tick 1000 envC2 0 100500 ts0 gC6 0).g
      (tick_nohz_stop_sched_tick 1000 envC2 0 100500 ts0 gC6 0).dev_next_event).ts
        = (tick_nohz_stop_sched_tick 1000 envC2 0 100500 ts0 gC6 0).ts ∧
    (tick_nohz_stop_sched_tick 1000 envC2 0 100500
      (tick_nohz_stop_sched_tick 1000 envC2 0 100500 ts0 gC6 0).ts
      (tick_nohz_stop_sched_tick 1000 envC2 0 100500 ts0 gC6 0).g
      (tick_nohz_stop_sched_tick 1000 envC2 0 100500 ts0 gC6 0).dev_next_event).g
        = (tick_nohz_stop_sched_tick 1000 envC2 0 100500 ts0 gC6 0).g ∧
    (tick_nohz_stop_sched_tick 1000 envC2 0 100500
      (tick_nohz_stop_sched_tick 1000 envC2 0 100500 ts0 gC6 0).ts
      (tick_nohz_stop_sched_tick 1000 envC2 0 100500 ts0 gC6 0).g
      (tick_nohz_stop_sched_tick 1000 envC2 0 100500 ts0 gC6 0).dev_next_event).dev_next_event
        = (tick_nohz_stop_sched_tick 1000 envC2 0 100500 ts0 gC6 0).dev_next_event :=
  C6_stop_tick_idempotent 1000 envC2 0 100500 ts0 gC6 0 _ (by decide) (by decide)
    (by decide) (by decide) (by decide) (by decide) (by decide) rfl

/-! ## C3: retry behaviour of `check_drop_timer_duty` -/

/-- An observation in which another CPU (id 2, marked busy-adaptive)
holds the duty at read time but a third CPU (id 5) owns it by the time
the `cmpxchg` runs: the claim attempt loses the race and the loop
repeats. -/
def obsRace : DutyObs :=
  { count1 := 1, dutyRead := 2, dutyUserNohz := true, dutyAtCas := 5
    count2 := 1 }

/-- The same situation finally observed consistently: the `cmpxchg`
succeeds and the call returns. -/
def obsSettled : DutyObs :=
  { count1 := 1, dutyRead := 2, dutyUserNohz := true, dutyAtCas := 2
    count2 := 1 }

/-- C3 counterexample: with adaptive CPUs present, an idle caller that
keeps losing the duty `cmpxchg` is still looping after two iterations,
and a run in which the race resolves only at the third iteration
returns after three — the loop performs more than one retry, so
"never loops more than twice regardless of the values observed" is
false. -/
theorem C3_counterexample :
    check_drop_run 0 { isIdleTask := true, adaptiveSelf := true }
        [obsRace, obsRace] = none ∧
    check_drop_run 0 { isIdleTask := true, adaptiveSelf := true }
        [obsRace, obsRace, obsSettled] = some (0, 3) := by decide

/-- With no concurrent interference during an iteration, the loop body
always returns (it never takes the `goto repeat` edge). -/
theorem check_drop_iter_obsOf_ret (cpu : Int) (ctx : DutyCtx) (duty nr : Int)
    (flagOf : Int → Bool) :
    ∃ v d, check_drop_iter cpu ctx (obsOf duty nr flagOf) = DutyIter.ret v d := by
  by_cases h1 : nr > 0
  · by_cases h2 : duty = cpu
    · exact ⟨cpu, duty, by simp [check_drop_iter, obsOf, h1, h2]⟩
    · simp only [check_drop_iter, obsOf, if_pos h1, if_neg h2]
      simp only [if_pos rfl, eq_self_iff_true, if_true]
      split <;> split <;> exact ⟨_, _, rfl⟩
  · simp only [check_drop_iter, obsOf, if_neg h1]
    exact ⟨_, _, rfl⟩

/-- C3 (amended): the drop/claim protocol is not hard-bounded — each
lost `cmpxchg` takes the `goto repeat` edge again (the
`WARN_ON_ONCE(++nrepeat > 1)` only diagnoses a second retry, it does
not stop it).  What does hold: whenever an iteration's shared reads and
its `cmpxchg` observe an interference-free state, the call returns at
that very iteration — in particular an uncontended call returns
immediately, with no retry at all. -/
theorem C3_check_drop_uncontended_no_retry (cpu : Int) (ctx : DutyCtx)
    (duty nr : Int) (flagOf : Int → Bool) (rest : List DutyObs) :
    ∃ v, check_drop_run cpu ctx (obsOf duty nr flagOf :: rest) = some (v, 1) := by
  obtain ⟨v, d, hiter⟩ := check_drop_iter_obsOf_ret cpu ctx duty nr flagOf
  exact ⟨v, by simp [check_drop_run, hiter]⟩

/-! ## C7: `tick_nohz_cpuset_stop_tick` -/

@[simp]
theorem can_stop_adaptive_tick_tick_stopped (e : Bool) (ts : TS) (nr : Int) :
    (can_stop_adaptive_tick e ts nr).2.1.tick_stopped = ts.tick_stopped := by
  simp only [can_stop_adaptive_tick]
  split
  · rfl
  · split <;> rfl

@[simp]
theorem can_stop_adaptive_tick_whence (e : Bool) (ts : TS) (nr : Int) :
    (can_stop_adaptive_tick e ts nr).2.1.saved_jiffies_whence
      = ts.saved_jiffies_whence := by
  simp only [can_stop_adaptive_tick]
  split
  · rfl
  · split <;> rfl

@[simp]
theorem can_stop_adaptive_tick_saved_jiffies (e : Bool) (ts : TS) (nr : Int) :
    (can_stop_adaptive_tick e ts nr).2.1.saved_jiffies = ts.saved_jiffies := by
  simp only [can_stop_adaptive_tick]
  split
  · rfl
  · split <;> rfl

/-- Environment of the C7 counterexample: an interrupt from kernel
mode in a task that has an address space, on an adaptive-nohz CPU that
is fully eligible. -/
def cenvC7 : CpusetEnv :=
  { hasRegs := true, userMode := false, cpusetAdaptive := true
    isIdleTask := false, hasMm := true, eligible := true
    stopEnv := envC2, now := 100500 }

/-- State of the C7 counterexample: tick running, CPU not yet marked
busy-adaptive. -/
def csC7 : CpusetState :=
  { ts := ts0, g := gC6, dev_next_event := 0, tif_nohz := false
    ext_qs := false }

/-- C7 counterexample: a kernel-mode interrupt of a task with an
address space makes `tick_nohz_cpuset_stop_tick` return without
stopping the tick — yet the call is not state-preserving: the
eligibility re-check inside it has already set the CPU's busy-adaptive
marker `user_nohz` and incremented `nr_cpus_user_nohz`, contradicting
"in every other context it returns with the tick state unchanged". -/
theorem C7_counterexample :
    (tick_nohz_cpuset_stop_tick 1000 0 cenvC7 csC7).ts.tick_stopped = false ∧
    csC7.ts.user_nohz = false ∧
    (tick_nohz_cpuset_stop_tick 1000 0 cenvC7 csC7).ts.user_nohz = true ∧
    (tick_nohz_cpuset_stop_tick 1000 0 cenvC7 csC7).g.nr_cpus_user_nohz
      = csC7.g.nr_cpus_user_nohz + 1 := by decide

/-- C7 (amended): `tick_nohz_cpuset_stop_tick` stops the tick only
when the interrupted context is user mode or the current task is a
kernel thread with no address space; on a successful first stop it
tags `saved_jiffies_whence` as `User` (user context, also entering the
RCU extended quiescent state) or `Sys` (kernel thread), snapshots
`saved_jiffies` from the current jiffies, and sets the per-task
`TIF_NOHZ` marker; in every other context it returns without touching
the stopped flag, the saved-accounting fields, the `TIF_NOHZ` marker
or the device — though the adaptive-eligibility re-check may still
toggle the busy-adaptive marker and counter. -/
theorem C7_cpuset_stop_tick_correct (tick_period : Ktime) (cpu : Int)
    (env : CpusetEnv) (s : CpusetState) :
    (¬ ((env.hasRegs ∧ env.userMode) ∨ ¬ env.hasMm) →
      (tick_nohz_cpuset_stop_tick tick_period cpu env s).ts.tick_stopped
        = s.ts.tick_stopped ∧
      (tick_nohz_cpuset_stop_tick tick_period cpu env s).ts.saved_jiffies_whence
        = s.ts.saved_jiffies_whence ∧
      (tick_nohz_cpuset_stop_tick tick_period cpu env s).ts.saved_jiffies
        = s.ts.saved_jiffies ∧
      (tick_nohz_cpuset_stop_tick tick_period cpu env s).tif_nohz = s.tif_nohz ∧
      (tick_nohz_cpuset_stop_tick tick_period cpu env s).dev_next_event
        = s.dev_next_event) ∧
    (s.ts.tick_stopped = false →
      (tick_nohz_cpuset_stop_tick tick_period cpu env s).ts.tick_stopped = true →
      ((env.hasRegs ∧ env.userMode) →
        (tick_nohz_cpuset_stop_tick tick_period cpu env s).ts.saved_jiffies_whence
          = Whence.user ∧
        (tick_nohz_cpuset_stop_tick tick_period cpu env s).ext_qs = true) ∧
      (¬ (env.hasRegs ∧ env.userMode) → ¬ env.hasMm →
        (tick_nohz_cpuset_stop_tick tick_period cpu env s).ts.saved_jiffies_whence
          = Whence.sys) ∧
      (tick_nohz_cpuset_stop_tick tick_period cpu env s).ts.saved_jiffies
        = (tick_nohz_cpuset_stop_tick tick_period cpu env s).g.jiffies ∧
      (tick_nohz_cpuset_stop_tick tick_period cpu env s).tif_nohz = true) := by
  by_cases c1 : ¬ env.cpusetAdaptive = true ∨ env.isIdleTask = true
  · have hres : tick_nohz_cpuset_stop_tick tick_period cpu env s = s := by
      simp only [tick_nohz_cpuset_stop_tick]; rw [if_pos c1]
    rw [hres]
    exact ⟨fun _ => ⟨rfl, rfl, rfl, rfl, rfl⟩,
      fun h0 h1 => absurd h1 (by simp [h0])⟩
  by_cases c2 : ¬ s.ts.tick_stopped = true ∧ s.ts.nohz_mode = NohzMode.inactive
  · have hres : tick_nohz_cpuset_stop_tick tick_period cpu env s = s := by
      simp only [tick_nohz_cpuset_stop_tick]; rw [if_neg c1, if_pos c2]
    rw [hres]
    exact ⟨fun _ => ⟨rfl, rfl, rfl, rfl, rfl⟩,
      fun h0 h1 => absurd h1 (by simp [h0])⟩
  by_cases c3 : ¬ (can_stop_adaptive_tick env.eligible s.ts
      s.g.nr_cpus_user_nohz).1 = true
  · have hres : tick_nohz_cpuset_stop_tick tick_period cpu env s =
        { s with
            ts := (can_stop_adaptive_tick env.eligible s.ts
              s.g.nr_cpus_user_nohz).2.1
            g := { s.g with nr_cpus_user_nohz :=
              (can_stop_adaptive_tick env.eligible s.ts
                s.g.nr_cpus_user_nohz).2.2 } } := by
      simp only [tick_nohz_cpuset_stop_tick]; rw [if_neg c1, if_neg c2, if_pos c3]
    rw [hres]
    exact ⟨fun _ => ⟨by simp, by simp, by simp, rfl, rfl⟩,
      fun h0 h1 => absurd h1 (by simp [h0])⟩
  by_cases c4 : ¬ (env.hasRegs = true ∧ env.userMode = true) ∧ env.hasMm = true
  · have hres : tick_nohz_cpuset_stop_tick tick_period cpu env s =
        { s with
            ts := (can_stop_adaptive_tick env.eligible s.ts
              s.g.nr_cpus_user_nohz).2.1
            g := { s.g with nr_cpus_user_nohz :=
              (can_stop_adaptive_tick env.eligible s.ts
                s.g.nr_cpus_user_nohz).2.2 } } := by
      simp only [tick_nohz_cpuset_stop_tick]
      rw [if_neg c1, if_neg c2, if_neg c3, if_pos c4]
    rw [hres]
    exact ⟨fun _ => ⟨by simp, by simp, by simp, rfl, rfl⟩,
      fun h0 h1 => absurd h1 (by simp [h0])⟩
  · constructor
    · exact fun hctx => absurd (by tauto) c4
    · intro h0 h1
      simp only [tick_nohz_cpuset_stop_tick] at h1 ⊢
      rw [if_neg c1, if_neg c2, if_neg c3, if_neg c4] at h1 ⊢
      split at h1
      · rename_i hc
        rw [if_pos hc]
        refine ⟨fun hu => ?_, fun hnu hnm => ?_, rfl, rfl⟩
        · rw [if_pos hu]
          exact ⟨rfl, rfl⟩
        · rw [if_neg hnu, if_pos hnm]
      · rename_i hc
        rw [if_neg hc]
        exact absurd ⟨by simp [h0], h1⟩ hc

/-- Environment of the C7 witness: a user-mode interrupt on an
eligible adaptive CPU. -/
def cenvW : CpusetEnv :=
  { hasRegs := true, userMode := true, cpusetAdaptive := true
    isIdleTask := false, hasMm := true, eligible := true
    stopEnv := envC2, now := 100500 }

/-- State of the C7 witness: tick running, another CPU holds the
duty. -/
def csW : CpusetState :=
  { ts := ts0, g := gC6, dev_next_event := 0, tif_nohz := false
    ext_qs := false }

/-- Witness for C7: a user-mode stop tags `User`, enters the extended
quiescent state, snapshots the jiffies counter and sets `TIF_NOHZ`. -/
theorem C7_witness :
    ((tick_nohz_cpuset_stop_tick 1000 0 cenvW csW).ts.saved_jiffies_whence
        = Whence.user ∧
     (tick_nohz_cpuset_stop_tick 1000 0 cenvW csW).ext_qs = true) ∧
    (tick_nohz_cpuset_stop_tick 1000 0 cenvW csW).ts.saved_jiffies
      = (tick_nohz_cpuset_stop_tick 1000 0 cenvW csW).g.jiffies ∧
    (tick_nohz_cpuset_stop_tick 1000 0 cenvW csW).tif_nohz = true := by
  have h := (C7_cpuset_stop_tick_correct 1000 0 cenvW csW).2 (by decide) (by decide)
  exact ⟨h.1 (by decide), h.2.2.1, h.2.2.2⟩

/-! ## C4: the busy-adaptive counter invariant -/

/-- Setting a clear flag grows the marked set by one. -/
theorem card_filter_update_true {n : Nat} (f : Fin n → Bool) (c : Fin n)
    (hf : f c = false) :
    ((Finset.univ : Finset (Fin n)).filter fun i => Function.update f c true i).card
      = ((Finset.univ : Finset (Fin n)).filter fun i => f i).card + 1 := by
  have hset : ((Finset.univ : Finset (Fin n)).filter fun i => Function.update f c true i)
      = insert c ((Finset.univ : Finset (Fin n)).filter fun i => f i) := by
    ext i
    by_cases hic : i = c <;> simp [Function.update_apply, hic, hf]
  rw [hset, Finset.card_insert_of_not_mem (by simp [hf])]

/-- Clearing a set flag shrinks the marked set by one. -/
theorem card_filter_update_false {n : Nat} (f : Fin n → Bool) (c : Fin n)
    (hf : f c = true) :
    ((Finset.univ : Finset (Fin n)).filter fun i => f i).card
      = ((Finset.univ : Finset (Fin n)).filter fun i => Function.update f c false i).card
        + 1 := by
  have hset : ((Finset.univ : Finset (Fin n)).filter fun i => f i)
      = insert c ((Finset.univ : Finset (Fin n)).filter fun i => Function.update f c false i) := by
    ext i
    by_cases hic : i = c <;> simp [Function.update_apply, hic, hf]
  rw [hset, Finset.card_insert_of_not_mem (by simp [Function.update_apply])]

/-- The `can_stop_adaptive_tick` mutation site preserves the counter
invariant. -/
theorem adaptiveCheckStep_inv {n : Nat} (cpu : Fin n) (elig : Bool)
    {s : DutySys n} (h : AdaptiveInv s) :
    AdaptiveInv (adaptiveCheckStep cpu elig s) := by
  unfold AdaptiveInv at h ⊢
  unfold adaptiveCheckStep
  by_cases h1 : elig = true ∧ ¬ s.user_nohz cpu = true
  · rw [if_pos h1]
    have hcard := card_filter_update_true s.user_nohz cpu
      (by rcases h1 with ⟨_, h2⟩; exact Bool.not_eq_true _ ▸ (by simpa using h2))
    simp only [hcard]
    omega
  · rw [if_neg h1]
    by_cases h2 : ¬ elig = true ∧ s.user_nohz cpu = true
    · rw [if_pos h2]
      have hcard := card_filter_update_false s.user_nohz cpu h2.2
      simp only []
      omega
    · rw [if_neg h2]
      exact h

/-- The flag-clearing sites (`tick_nohz_start_idle`,
`tick_nohz_restart_adaptive`) preserve the counter invariant. -/
theorem adaptiveClearStep_inv {n : Nat} (cpu : Fin n) {s : DutySys n}
    (h : AdaptiveInv s) : AdaptiveInv (adaptiveClearStep cpu s) := by
  unfold AdaptiveInv at h ⊢
  unfold adaptiveClearStep
  by_cases h1 : s.user_nohz cpu = true
  · rw [if_pos h1]
    have hcard := card_filter_update_false s.user_nohz cpu h1
    simp only []
    omega
  · rw [if_neg h1]
    exact h

/-- C4: from any state satisfying the counter invariant, every
reachable state still satisfies it — `nr_cpus_user_nohz` equals the
exact number of CPUs whose `user_nohz` marker is set (each setting site
increments, each clearing site decrements), and in particular the
counter never goes negative. -/
theorem C4_busy_adaptive_counter_invariant {n : Nat} (s s' : DutySys n)
    (hInv : AdaptiveInv s)
    (hsteps : Relation.ReflTransGen (AdaptiveStep n) s s') :
    AdaptiveInv s' ∧ 0 ≤ s'.nr_cpus_user_nohz := by
  induction hsteps with
  | refl => exact ⟨hInv, by rw [hInv]; exact Int.natCast_nonneg _⟩
  | tail hab hbc ih =>
    rename_i b c
    obtain ⟨hb, _⟩ := ih
    have hc : AdaptiveInv c := by
      cases hbc with
      | check cpu elig s => exact adaptiveCheckStep_inv cpu elig hb
      | startIdle cpu s => exact adaptiveClearStep_inv cpu hb
      | restartAdaptive cpu s => exact adaptiveClearStep_inv cpu hb
    exact ⟨hc, by rw [hc]; exact Int.natCast_nonneg _⟩

/-- The all-clear two-CPU initial state. -/
def sys0 : DutySys 2 := { user_nohz := fun _ => false, nr_cpus_user_nohz := 0 }

/-- Witness for C4: one CPU becoming busy-adaptive from the all-clear
state keeps the counter equal to the marked count (now 1) and
non-negative. -/
theorem C4_witness :
    AdaptiveInv (adaptiveCheckStep (0 : Fin 2) true sys0) ∧
    0 ≤ (adaptiveCheckStep (0 : Fin 2) true sys0).nr_cpus_user_nohz :=
  C4_busy_adaptive_counter_invariant sys0 _ (by decide)
    (Relation.ReflTransGen.single (AdaptiveStep.check 0 true sys0))

/-! ## C9: public idle/iowait time accessors -/

/-- C9: with the subsystem disabled both accessors return the `(u64)-1`
sentinel and leave the per-CPU accounting state untouched; enabled and
called with a null `last_update_time` pointer, each returns its
accumulator plus the in-progress interval currently accruing to it
(the idle accessor only while the CPU is idle and not in iowait, the
iowait accessor only while idle in iowait), again without mutating
state. -/
theorem C9_time_accessors_correct (en : Bool) (nio : Nat) (now : Ktime)
    (w : Bool) (ts : TS) :
    (en = false →
      get_cpu_idle_time_us en nio now w ts = (2 ^ 64 - 1, ts, none) ∧
      get_cpu_iowait_time_us en nio now w ts = (2 ^ 64 - 1, ts, none)) ∧
    (en = true →
      get_cpu_idle_time_us en nio now false ts =
        (u64_of_s64 (ktime_to_us (ts.idle_sleeptime +
            (if ts.idle_active ∧ nio = 0 then now - ts.idle_entrytime else 0))),
          ts, none) ∧
      get_cpu_iowait_time_us en nio now false ts =
        (u64_of_s64 (ktime_to_us (ts.iowait_sleeptime +
            (if ts.idle_active ∧ nio > 0 then now - ts.idle_entrytime else 0))),
          ts, none)) := by
  constructor
  · intro hen
    subst hen
    have hs : u64_of_s64 (-1) = 2 ^ 64 - 1 := by decide
    constructor
    · simp [get_cpu_idle_time_us, hs]
    · simp [get_cpu_iowait_time_us, hs]
  · intro hen
    subst hen
    constructor
    · by_cases hc : ts.idle_active ∧ nio = 0 <;>
        simp [get_cpu_idle_time_us, hc]
    · by_cases hc : ts.idle_active ∧ nio > 0 <;>
        simp [get_cpu_iowait_time_us, hc]

/-- Witness for C9: disabled gives the sentinel; enabled with a null
pointer adds the in-progress idle interval. -/
theorem C9_witness :
    get_cpu_idle_time_us false 0 5000 false ts0 = (2 ^ 64 - 1, ts0, none) ∧
    get_cpu_idle_time_us true 0 5000 false
        { ts0 with idle_active := true, idle_entrytime := 2000
                   idle_sleeptime := 1000 }
      = (4, { ts0 with idle_active := true, idle_entrytime := 2000
                       idle_sleeptime := 1000 }, none) := by
  constructor
  · exact ((C9_time_accessors_correct false 0 5000 false ts0).1 rfl).1
  · have h := ((C9_time_accessors_correct true 0 5000 false
      { ts0 with idle_active := true, idle_entrytime := 2000
                 idle_sleeptime := 1000 }).2 rfl).1
    rw [h]; decide

/-! ## C8: `tick_nohz_account_ticks` -/

/-- C8 counterexample: with an implausibly large elapsed tick count
(`jiffies − saved_jiffies = LONG_MAX`) the flush performs no accounting
but also logs nothing — the skip is silent, not a "logged, rate-limited
no-op" as claimed. -/
theorem C8_counterexample :
    tick_nohz_account_ticks LONG_MAX
        { ts0 with saved_jiffies_whence := Whence.idle }
      = { sink := none, logged := false } := by decide

/-- C8 (amended): the flush computes `elapsed = jiffies −
saved_jiffies` and routes exactly `elapsed` ticks to the sink selected
by `saved_reason`; it performs no accounting when `elapsed` is zero,
when `elapsed` is implausibly large (`≥ LONG_MAX`, a silent no-op —
nothing is logged on that path), or when the reason is `None`. -/
theorem C8_tick_nohz_account_ticks_correct (j : Nat) (ts : TS) :
    (tick_nohz_account_ticks j ts).logged = false ∧
    ((u64_sub j ts.saved_jiffies = 0 ∨ LONG_MAX ≤ u64_sub j ts.saved_jiffies ∨
        ts.saved_jiffies_whence = Whence.none) →
      (tick_nohz_account_ticks j ts).sink = none) ∧
    (u64_sub j ts.saved_jiffies ≠ 0 → u64_sub j ts.saved_jiffies < LONG_MAX →
      ts.saved_jiffies_whence ≠ Whence.none →
      (tick_nohz_account_ticks j ts).sink
        = some (ts.saved_jiffies_whence, u64_sub j ts.saved_jiffies)) := by
  by_cases hc : u64_sub j ts.saved_jiffies ≠ 0 ∧ u64_sub j ts.saved_jiffies < LONG_MAX
  · obtain ⟨hc0, hclt⟩ := hc
    cases hw : ts.saved_jiffies_whence
    · refine ⟨?_, fun _ => ?_, fun _ _ hne => absurd rfl hne⟩
      · simp [tick_nohz_account_ticks, hw, hc0, hclt]
      · simp [tick_nohz_account_ticks, hw, hc0, hclt]
    all_goals
      refine ⟨?_, fun hd => ?_, fun _ _ _ => ?_⟩
      · simp [tick_nohz_account_ticks, hw, hc0, hclt]
      · rcases hd with h0 | hbig | hnone
        · exact absurd h0 hc0
        · exact absurd hclt (not_lt.mpr hbig)
        · exact Whence.noConfusion hnone
      · simp [tick_nohz_account_ticks, hw, hc0, hclt]
  · have hout : tick_nohz_account_ticks j ts = { sink := none, logged := false } := by
      simp only [tick_nohz_account_ticks, if_neg hc]
    refine ⟨by rw [hout], fun _ => by rw [hout], fun h0 hlt _ => absurd ⟨h0, hlt⟩ hc⟩

/-- Witness for C8: 5 elapsed ticks with a `User` reason are routed to
the user sink. -/
theorem C8_witness :
    (tick_nohz_account_ticks 105
        { ts0 with saved_jiffies := 100, saved_jiffies_whence := Whence.user }).sink
      = some (Whence.user, 5) := by
  have h := (C8_tick_nohz_account_ticks_correct 105
    { ts0 with saved_jiffies := 100, saved_jiffies_whence := Whence.user }).2.2
    (by decide) (by decide) (by decide)
  rw [h]; decide

/-! ## C5: `can_stop_idle_tick` -/

/-- C5 counterexample: an offline CPU in high-resolution mode, no
need-resched, with a soft interrupt pending locally — the claim demands
`false` ("a soft-interrupt is pending locally"), but the source gates
the softirq refusal on `cpu_online(cpu)` and returns `true`. -/
theorem C5_counterexample :
    (can_stop_idle_tick 0
        { online := false, needResched := false, softirqPending := 2 }
        3 0 ts0).1 = true := by decide

/-- C5 (amended): `can_stop_idle_tick` returns false exactly when the
tick mode is `Inactive`, the scheduler reports need-resched, or a soft
interrupt is pending locally *while the CPU is online*; the softirq
refusal is logged at most a bounded number of times (only while the
rate-limit counter is below 10, each log incrementing it); when none of
the conditions holds it returns true and `__tick_nohz_idle_enter`
proceeds to `tick_nohz_stop_sched_tick`. -/
theorem C5_can_stop_idle_tick_correct (cpu : Int) (env : IdleTickEnv)
    (duty : Int) (rl : Nat) (ts : TS) :
    ((can_stop_idle_tick cpu env duty rl ts).1 = false ↔
      (ts.nohz_mode = NohzMode.inactive ∨ env.needResched = true ∨
        (env.softirqPending ≠ 0 ∧ env.online = true))) ∧
    ((can_stop_idle_tick cpu env duty rl ts).2.2.2 = true →
      rl < 10 ∧ (can_stop_idle_tick cpu env duty rl ts).2.2.1 = rl + 1) ∧
    ((can_stop_idle_tick cpu env duty rl ts).2.2.2 = false →
      (can_stop_idle_tick cpu env duty rl ts).2.2.1 = rl) ∧
    ((can_stop_idle_tick cpu env duty rl ts).1 = true →
      idle_enter_calls_stop_tick cpu env duty rl ts = true) := by
  unfold idle_enter_calls_stop_tick can_stop_idle_tick
  split_ifs <;> simp_all

/-- Witness for C5: a pending softirq on an online CPU with the rate
limiter at 0 logs and bumps the limiter to 1. -/
theorem C5_witness :
    (can_stop_idle_tick 0
        { online := true, needResched := false, softirqPending := 1 }
        3 0 ts0).2.2.2 = true ∧
    (0 < 10 ∧
      (can_stop_idle_tick 0
          { online := true, needResched := false, softirqPending := 1 }
          3 0 ts0).2.2.1 = 0 + 1) :=
  ⟨by decide, (C5_can_stop_idle_tick_correct 0
      { online := true, needResched := false, softirqPending := 1 }
      3 0 ts0).2.1 (by decide)⟩

end TickSched
